import Mathlib

set_option autoImplicit false

/-!
# gobadrepo: record introspection and SQL generation

A shallow embedding of `gobadrepo.go`.  Go strings are Lean `String`s,
`[]interface{}` argument lists (which only ever hold `FieldValue` strings) are
`List String`, `strings.Join(xs, sep)` is `sep.intercalate xs`, and
`fmt.Sprintf("%d", n)` is `toString n`.  A Go `panic` is an `Except.error`.
Loops over slices are left folds whose accumulator holds the loop's variables.
Loop counters are `Nat`: they only count appended arguments, so the 64-bit
bound of Go's `int` is never reached.

`strings.ToLower` reads the Unicode tables of the Go toolchain for every rune
outside ASCII.  Those tables are not part of the repository: they enter as the
parameter `unicodeLower` of `ExtractTableStructInfo` and of everything that
calls it, and the theorems hold for every such table.
-/

namespace Gobadrepo

/-! ## Data model -/

/-- Go's `StructFieldsInfo`: one column descriptor. -/
structure StructFieldsInfo where
  FieldName : String
  FieldType : String
  FieldValue : String
  deriving DecidableEq

/-- Go's `StructInfo`: a table name and its ordered columns. -/
structure StructInfo where
  StructName : String
  StructFieldsInfo : List StructFieldsInfo
  deriving DecidableEq

/-- The ways the Go code can panic. -/
inductive Panic where
  | nilDereference
  | notAStruct
  | onlyFlatStructs
  | dbTagMissing
  | idFieldMissing
  | unexportedField
  | indexOutOfRange
  deriving DecidableEq

/-- The closure `placeholder` that `generateFindQuery`, `generateUpdateQuery`
and `generateDeleteQuery` each declare. -/
def placeholder (driverName : String) (i : Nat) : String :=
  if driverName = "postgres" then "$" ++ toString i else "?"

/-! ## generateFindQuery -/

/-- Loop variables of `generateFindQuery`. -/
structure FindState where
  conditions : List String
  args : List String
  i : Nat
  deriving DecidableEq

/-- One iteration of the loop of `generateFindQuery` (lines 204-214). -/
def findStep (driverName : String) (st : FindState) (field : StructFieldsInfo) : FindState :=
  if field.FieldName = "id" ∧ field.FieldValue = "0" then st
  else if field.FieldValue ≠ "" then
    { conditions := st.conditions ++ [field.FieldName ++ " = " ++ placeholder driverName st.i],
      args := st.args ++ [field.FieldValue],
      i := st.i + 1 }
  else st

/-- The Go function `generateFindQuery`. -/
def generateFindQuery (structInfo : StructInfo) (limit skip : Int) (driverName : String) :
    String × List String :=
  let st := structInfo.StructFieldsInfo.foldl (findStep driverName) ⟨[], [], 1⟩
  let conditionsStr := " AND ".intercalate st.conditions
  let query := "SELECT * FROM " ++ structInfo.StructName ++ " WHERE " ++ conditionsStr
  let query :=
    if limit > 0 then
      let query := query ++ (" LIMIT " ++ toString limit)
      if skip > 0 then query ++ (" OFFSET " ++ toString skip) else query
    else query
  let query := query ++ ";"
  (query, st.args)

/-! ## generateInsertQuery -/

/-- One iteration of the first loop of `generateInsertQuery` (lines 160-165):
the column names of the first descriptor, `id` skipped. -/
def insertColumnsStep (columns : List String) (field : StructFieldsInfo) : List String :=
  if field.FieldName = "id" then columns else columns ++ [field.FieldName]

/-- Variables of the inner loop of `generateInsertQuery`. -/
structure InsertRowState where
  tempValues : List String
  args : List String
  deriving DecidableEq

/-- One iteration of the inner loop of `generateInsertQuery` (lines 169-180). -/
def insertFieldStep (driverName : String) (st : InsertRowState) (field : StructFieldsInfo) :
    InsertRowState :=
  if field.FieldName = "id" then st
  else
    let args := st.args ++ [field.FieldValue]
    if driverName = "postgres" then
      { tempValues := st.tempValues ++ ["$" ++ toString args.length], args := args }
    else
      { tempValues := st.tempValues ++ ["?"], args := args }

/-- Variables of the outer loop of `generateInsertQuery`. -/
structure InsertState where
  values : List String
  args : List String
  deriving DecidableEq

/-- One iteration of the outer loop of `generateInsertQuery` (lines 167-182). -/
def insertRowStep (driverName : String) (st : InsertState) (si : StructInfo) : InsertState :=
  let row := si.StructFieldsInfo.foldl (insertFieldStep driverName) ⟨[], st.args⟩
  { values := st.values ++ ["(" ++ ", ".intercalate row.tempValues ++ ")"], args := row.args }

/-- The Go function `generateInsertQuery`.  `structInfo[0]` panics with an
index out of range on the empty slice. -/
def generateInsertQuery (structInfo : List StructInfo) (driverName : String) :
    Except Panic (String × List String) :=
  match structInfo with
  | [] => .error .indexOutOfRange
  | first :: _ =>
    let columns := first.StructFieldsInfo.foldl insertColumnsStep []
    let st := structInfo.foldl (insertRowStep driverName) ⟨[], []⟩
    let columnsStr := ", ".intercalate columns
    let valuesStr := ", ".intercalate st.values
    .ok ("INSERT INTO " ++ first.StructName ++ " (" ++ columnsStr ++ ") VALUES " ++ valuesStr ++ ";",
      st.args)

/-! ## generateUpdateQuery -/

/-- Loop variables of `generateUpdateQuery`. -/
structure UpdateState where
  updates : List String
  conditions : List String
  args : List String
  argIndex : Nat
  deriving DecidableEq

/-- One iteration of the first loop of `generateUpdateQuery` (lines 244-254). -/
def updateSetStep (driverName : String) (st : UpdateState) (field : StructFieldsInfo) :
    UpdateState :=
  if field.FieldName = "id" then st
  else if field.FieldValue ≠ "" then
    { st with
      updates := st.updates ++ [field.FieldName ++ " = " ++ placeholder driverName st.argIndex],
      args := st.args ++ [field.FieldValue],
      argIndex := st.argIndex + 1 }
  else st

/-- One iteration of the second loop of `generateUpdateQuery` (lines 256-266). -/
def updateWhereStep (driverName : String) (st : UpdateState) (field : StructFieldsInfo) :
    UpdateState :=
  if field.FieldName = "id" ∧ field.FieldValue = "0" then st
  else if field.FieldValue ≠ "" then
    { st with
      conditions :=
        st.conditions ++ [field.FieldName ++ " = " ++ placeholder driverName st.argIndex],
      args := st.args ++ [field.FieldValue],
      argIndex := st.argIndex + 1 }
  else st

/-- The Go function `generateUpdateQuery`. -/
def generateUpdateQuery (structQueryInfo structDataInfo : StructInfo) (driverName : String) :
    String × List String :=
  let st := structDataInfo.StructFieldsInfo.foldl (updateSetStep driverName) ⟨[], [], [], 1⟩
  let st := structQueryInfo.StructFieldsInfo.foldl (updateWhereStep driverName) st
  let updatesStr := ", ".intercalate st.updates
  let conditionsStr := " AND ".intercalate st.conditions
  ("UPDATE " ++ structDataInfo.StructName ++ " SET " ++ updatesStr ++ " WHERE " ++
      conditionsStr ++ ";",
    st.args)

/-! ## generateDeleteQuery and generateDeleteAllRowsQuery -/

/-- Loop variables of `generateDeleteQuery`. -/
structure DeleteState where
  conditions : List String
  args : List String
  argIndex : Nat
  deriving DecidableEq

/-- One iteration of the loop of `generateDeleteQuery` (lines 288-298). -/
def deleteStep (driverName : String) (st : DeleteState) (field : StructFieldsInfo) :
    DeleteState :=
  if field.FieldName = "id" ∧ field.FieldValue = "0" then st
  else if field.FieldValue ≠ "" then
    { conditions :=
        st.conditions ++ [field.FieldName ++ " = " ++ placeholder driverName st.argIndex],
      args := st.args ++ [field.FieldValue],
      argIndex := st.argIndex + 1 }
  else st

/-- The Go function `generateDeleteQuery`. -/
def generateDeleteQuery (structQueryInfo : StructInfo) (driverName : String) :
    String × List String :=
  let st := structQueryInfo.StructFieldsInfo.foldl (deleteStep driverName) ⟨[], [], 1⟩
  let conditionsStr := " AND ".intercalate st.conditions
  ("DELETE FROM " ++ structQueryInfo.StructName ++ " WHERE " ++ conditionsStr ++ ";", st.args)

/-- The Go function `generateDeleteAllRowsQuery`. -/
def generateDeleteAllRowsQuery (structQueryInfo : StructInfo) : String :=
  "DELETE FROM " ++ structQueryInfo.StructName ++ ";"

/-! ## generateCreateTableSQL -/

/-- One iteration of the loop of `generateCreateTableSQL` (lines 108-111). -/
def createColumnsStep (columns : List String) (field : StructFieldsInfo) : List String :=
  columns ++ [field.FieldName ++ " " ++ field.FieldType]

/-- The Go function `generateCreateTableSQL`; the unsupported driver prints a
message and returns the empty string. -/
def generateCreateTableSQL (info : StructInfo) (driverName : String) : String :=
  let columns := info.StructFieldsInfo.foldl createColumnsStep []
  let columnDefinitions := ",\n\t".intercalate columns
  if driverName = "postgres" then
    "\nDO\n$do$\nBEGIN\n   IF NOT EXISTS (\n      SELECT FROM pg_class c \n" ++
    "      WHERE c.relkind = 'S' \n      AND c.relname = '" ++ info.StructName ++ "_id_seq'\n" ++
    "   ) THEN\n      CREATE SEQUENCE " ++ info.StructName ++ "_id_seq;\n   END IF;\nEND\n$do$;\n" ++
    "CREATE TABLE IF NOT EXISTS " ++ info.StructName ++ " (\n\t" ++ columnDefinitions ++ "\n);\n" ++
    "ALTER SEQUENCE " ++ info.StructName ++ "_id_seq OWNED BY " ++ info.StructName ++ ".id;\n"
  else if driverName = "mysql" then
    "\nCREATE TABLE IF NOT EXISTS " ++ info.StructName ++ " (\n\t" ++ columnDefinitions ++
    "\n) ENGINE=InnoDB DEFAULT CHARSET=utf8;"
  else if driverName = "sqlite3" then
    "\nCREATE TABLE IF NOT EXISTS " ++ info.StructName ++ " (\n\t" ++ columnDefinitions ++ "\n);"
  else
    ""

/-! ## Records as seen through `reflect` -/

/-- The kinds of `reflect.Kind`; `RawPointer` stands for `reflect.UnsafePointer`. -/
inductive Kind where
  | Invalid | Bool | Int | Int8 | Int16 | Int32 | Int64
  | Uint | Uint8 | Uint16 | Uint32 | Uint64 | Uintptr
  | Float32 | Float64 | Complex64 | Complex128
  | Array | Chan | Func | Interface | Map | Pointer | Slice | String | Struct | RawPointer
  deriving DecidableEq

/-- A field value, as far as `fmt.Sprintf("%v", v)` distinguishes it: integers
print in decimal, strings print as themselves, booleans as `true`/`false`; any
other value is carried by its `%v` text. -/
inductive GoValue where
  | int (n : Int)
  | str (s : String)
  | bool (b : Bool)
  | other (text : String)
  deriving DecidableEq

/-- Text of `fmt.Sprintf("%v", v)`. -/
def GoValue.format : GoValue → String
  | .int n => toString n
  | .str s => s
  | .bool b => if b then "true" else "false"
  | .other text => text

/-- What the code reads of one struct field: `reflect.StructField`'s `Name`,
`PkgPath` (empty exactly for exported fields), the `db` key of its tag (empty
when absent), its type's `Kind()` and `String()`, and the field's value. -/
structure GoField where
  Name : String
  PkgPath : String
  DbTag : String
  Kind : Kind
  TypeString : String
  Value : GoValue
  deriving DecidableEq

/-- What the code reads of a non-nil `any`: the dynamic type's `Name()` and
`Kind()` and, for a struct, its fields in declaration order. -/
structure GoObject where
  Name : String
  Kind : Kind
  Fields : List GoField
  deriving DecidableEq

/-! ## ExtractTableStructInfo -/

/-- Go's `strings.HasPrefix(s, p)`: `s` begins with `p`. -/
def hasPrefix (s p : String) : Bool := p.data.isPrefixOf s.data

/-- Go's `strings.HasSuffix(s, p)`: `s` ends with `p`. -/
def hasSuffix (s p : String) : Bool := p.data.isSuffixOf s.data

/-- The Go map `SQL_DATA_TYPES`, as the sequence of its entries. -/
def SQL_DATA_TYPES : List (String × String) :=
  [("int", "INTEGER"), ("string", "TEXT"), ("float", "REAL")]

/-- The Go map `ID_AUTO_INCREMENT`, as the sequence of its entries. -/
def ID_AUTO_INCREMENT : List (String × String) :=
  [("sqlite3", "INTEGER PRIMARY KEY AUTOINCREMENT"),
   ("postgres", "SERIAL PRIMARY KEY"),
   ("mysql", "INT AUTO_INCREMENT PRIMARY KEY")]

/-- The type-mapping loop of lines 70-81, ranging over the map entries in the
order `entries`: the first entry whose key has `fieldType` as a prefix decides,
and `TEXT` is the default. -/
def mapDataType (entries : List (String × String)) (fieldType : String) : String :=
  match entries.find? (fun e => hasPrefix e.1 fieldType) with
  | some e => e.2
  | none => "TEXT"

/-- Go's `unicode.ToLower` on one rune.  On the ASCII runes it is the test
`'A' <= r && r <= 'Z'` of the Go library, which is `Char.toLower`; on every
other rune the result is read from the Unicode tables of the toolchain
(`unicode.To(unicode.LowerCase, r)`), which are not part of this repository
and enter as the parameter `unicodeLower`. -/
def runeToLower (unicodeLower : Char → Char) (r : Char) : Char :=
  if r.toNat ≤ 127 then r.toLower else unicodeLower r

/-- Go's `strings.ToLower` on a valid UTF-8 string: `unicode.ToLower` mapped
over its runes. -/
def toLower (unicodeLower : Char → Char) (s : String) : String :=
  ⟨s.data.map (runeToLower unicodeLower)⟩

/-- Lines 45-50: the table name of a type name. -/
def tableName (unicodeLower : Char → Char) (typeName : String) : String :=
  let structName := toLower unicodeLower typeName
  if !hasSuffix structName "s" then structName ++ "s" else structName

/-- Loop variables of `ExtractTableStructInfo`. -/
structure ExtractState where
  fields : List StructFieldsInfo
  idFieldFound : Bool
  deriving DecidableEq

/-- The loop of `ExtractTableStructInfo` (lines 53-96) over the remaining
fields. -/
def extractLoop (fillSQLTypes : Bool) (driverName : String) :
    List GoField → ExtractState → Except Panic ExtractState
  | [], st => .ok st
  | field :: rest, st =>
    if field.Kind = Kind.Struct then .error .onlyFlatStructs
    else if field.PkgPath ≠ "" then .error .unexportedField
    else
      let fieldType := field.TypeString
      let fieldValueStr := field.Value.format
      let dbTag := field.DbTag
      if dbTag = "" then .error .dbTagMissing
      else
        let typed : String × Bool :=
          if fillSQLTypes then
            let fieldType := mapDataType SQL_DATA_TYPES fieldType
            if field.Name = "Id" then
              ((ID_AUTO_INCREMENT.lookup driverName).getD "", true)
            else (fieldType, st.idFieldFound)
          else (fieldType, st.idFieldFound)
        extractLoop fillSQLTypes driverName rest
          { fields := st.fields ++ [⟨dbTag, typed.1, fieldValueStr⟩], idFieldFound := typed.2 }

/-- The Go function `ExtractTableStructInfo`.  The argument is `none` for the
nil interface, on which `objType.Kind()` dereferences nil. -/
def ExtractTableStructInfo (unicodeLower : Char → Char) (tableStruct : Option GoObject)
    (fillSQLTypes : Bool) (driverName : String) : Except Panic StructInfo :=
  match tableStruct with
  | none => .error .nilDereference
  | some obj =>
    if obj.Kind ≠ Kind.Struct then .error .notAStruct
    else
      match extractLoop fillSQLTypes driverName obj.Fields ⟨[], false⟩ with
      | .error e => .error e
      | .ok st =>
        if !st.idFieldFound && fillSQLTypes then .error .idFieldMissing
        else .ok { StructName := tableName unicodeLower obj.Name, StructFieldsInfo := st.fields }

/-! ## The wrappers: what is handed to the database handle -/

/-- The Go function `DeleteAllRows`, up to the call `db.Exec(sqlQuery)`: the
statement and the (absent, hence empty) variadic arguments passed to `Exec`. -/
def DeleteAllRows (unicodeLower : Char → Char)
    (driverName : String) (tableStructQuery : Option GoObject) :
    Except Panic (String × List String) :=
  match ExtractTableStructInfo unicodeLower tableStructQuery false driverName with
  | .error e => .error e
  | .ok structQueryInfo => .ok (generateDeleteAllRowsQuery structQueryInfo, [])

/-- The Go function `FindManyLimitSkip`, up to the call
`db.Select(tableStruct, findQuery, args...)`: the statement and arguments. -/
def FindManyLimitSkip (unicodeLower : Char → Char)
    (driverName : String) (tableStructQuery : Option GoObject)
    (limit skip : Int) : Except Panic (String × List String) :=
  match ExtractTableStructInfo unicodeLower tableStructQuery false driverName with
  | .error e => .error e
  | .ok structInfo => .ok (generateFindQuery structInfo limit skip driverName)

/-- The Go function `FindMany`. -/
def FindMany (unicodeLower : Char → Char)
    (driverName : String) (tableStructQuery : Option GoObject) :
    Except Panic (String × List String) :=
  FindManyLimitSkip unicodeLower driverName tableStructQuery 0 0

/-- The Go function `FindOne`, up to the call
`db.Get(tableStruct, findQuery, args...)`: the statement and arguments. -/
def FindOne (unicodeLower : Char → Char)
    (driverName : String) (tableStructQuery : Option GoObject) :
    Except Panic (String × List String) :=
  match ExtractTableStructInfo unicodeLower tableStructQuery false driverName with
  | .error e => .error e
  | .ok structInfo => .ok (generateFindQuery structInfo 1 0 driverName)

/-- The Go function `UpdateMany`, up to the call `db.Exec(sqlQuery, args...)`:
the statement and arguments.  The query record is introspected first. -/
def UpdateMany (unicodeLower : Char → Char)
    (driverName : String) (tableStructQuery tableStructUpdate : Option GoObject) :
    Except Panic (String × List String) :=
  match ExtractTableStructInfo unicodeLower tableStructQuery false driverName with
  | .error e => .error e
  | .ok structQueryInfo =>
    match ExtractTableStructInfo unicodeLower tableStructUpdate false driverName with
    | .error e => .error e
    | .ok structDataInfo => .ok (generateUpdateQuery structQueryInfo structDataInfo driverName)

/-- The loop of `InsertMany` (lines 329-332): the records are introspected in
order, each descriptor appended to `structInfos`; the first panic aborts. -/
def insertManyLoop (unicodeLower : Char → Char) (driverName : String) :
    List (Option GoObject) → List StructInfo → Except Panic (List StructInfo)
  | [], structInfos => .ok structInfos
  | tableStruct :: rest, structInfos =>
    match ExtractTableStructInfo unicodeLower tableStruct false driverName with
    | .error e => .error e
    | .ok si => insertManyLoop unicodeLower driverName rest (structInfos ++ [si])

/-- The Go function `InsertMany`, up to the call `db.Exec(sqlQuery, args...)`:
the statement and arguments.  There is no test of `tablesStructs` being empty
before `generateInsertQuery` is called. -/
def InsertMany (unicodeLower : Char → Char)
    (driverName : String) (tablesStructs : List (Option GoObject)) :
    Except Panic (String × List String) :=
  match insertManyLoop unicodeLower driverName tablesStructs [] with
  | .error e => .error e
  | .ok structInfos => generateInsertQuery structInfos driverName

/-- The Go function `InsertOne`, up to the call `db.Exec(sqlQuery, args...)`:
the statement and arguments. -/
def InsertOne (unicodeLower : Char → Char) (driverName : String) (tableStruct : Option GoObject) :
    Except Panic (String × List String) :=
  match ExtractTableStructInfo unicodeLower tableStruct false driverName with
  | .error e => .error e
  | .ok structInfo => generateInsertQuery ([] ++ [structInfo]) driverName

/-! ## Specification-side vocabulary -/

/-- A column takes part in a filter: its value is non-empty and it is not the
column `id` holding `"0"`. -/
def isFilterColumn (f : StructFieldsInfo) : Bool :=
  decide (f.FieldValue ≠ "") && !(decide (f.FieldName = "id") && decide (f.FieldValue = "0"))

/-- The columns of a descriptor that take part in a filter, in column order. -/
def filterColumns (info : StructInfo) : List StructFieldsInfo :=
  info.StructFieldsInfo.filter isFilterColumn

/-- Clauses `<name> = <placeholder>` for the given columns, the placeholders
numbered from `start` on. -/
def numberedClauses (driverName : String) (start : Nat) (cols : List StructFieldsInfo) :
    List String :=
  (cols.enumFrom start).map (fun p => p.2.FieldName ++ " = " ++ placeholder driverName p.1)

/-- A column takes part in the SET list of an update: it is not named `id`
and its value is non-empty. -/
def isSetColumn (f : StructFieldsInfo) : Bool :=
  !decide (f.FieldName = "id") && decide (f.FieldValue ≠ "")

/-- The columns of a descriptor that take part in a SET list, in column order. -/
def setColumns (info : StructInfo) : List StructFieldsInfo :=
  info.StructFieldsInfo.filter isSetColumn

/-- The columns of a descriptor that are not named `id`, in column order. -/
def nonIdColumns (info : StructInfo) : List StructFieldsInfo :=
  info.StructFieldsInfo.filter (fun f => !decide (f.FieldName = "id"))

/-- The condition string of a descriptor: the ' AND '-join of its filter
clauses, numbered from 1. -/
def whereClause (driverName : String) (info : StructInfo) : String :=
  " AND ".intercalate (numberedClauses driverName 1 (filterColumns info))

/-- A parenthesised value group. -/
def parenGroup (placeholders : List String) : String :=
  "(" ++ ", ".intercalate placeholders ++ ")"

/-- The postgres value groups of an insert whose first placeholder number is
`start`: one group per descriptor, one placeholder per non-`id` column. -/
def postgresGroups : Nat → List StructInfo → List (List String)
  | _, [] => []
  | start, si :: rest =>
    (List.range' start (nonIdColumns si).length).map (fun k => "$" ++ toString k) ::
      postgresGroups (start + (nonIdColumns si).length) rest

/-- The three dialects of the specification. -/
inductive Dialect where
  | sqlite
  | postgres
  | mysql
  deriving DecidableEq

/-- The driver name under which the code knows a dialect (`db.DriverName()`
after `sqlx.MustConnect("sqlite3", ...)` and so on). -/
def Dialect.driverName : Dialect → String
  | .sqlite => "sqlite3"
  | .postgres => "postgres"
  | .mysql => "mysql"

/-- The auto-increment clause the specification gives for each dialect. -/
def Dialect.autoIncrement : Dialect → String
  | .sqlite => "INTEGER PRIMARY KEY AUTOINCREMENT"
  | .postgres => "SERIAL PRIMARY KEY"
  | .mysql => "INT AUTO_INCREMENT PRIMARY KEY"

/-- The first three checks pass on a field: it is not of struct kind, it is
exported (so `Interface()` returns its value) and it has a `db` tag. -/
def fieldAccepted (f : GoField) : Bool :=
  !decide (f.Kind = Kind.Struct) && decide (f.PkgPath = "") && !decide (f.DbTag = "")

/-- The panic the loop raises on a field that is not accepted. -/
def fieldPanic (f : GoField) : Panic :=
  if f.Kind = Kind.Struct then Panic.onlyFlatStructs
  else if f.PkgPath ≠ "" then Panic.unexportedField
  else Panic.dbTagMissing

/-- The column the loop appends for an accepted field. -/
def columnOf (fillSQLTypes : Bool) (driverName : String) (f : GoField) : StructFieldsInfo :=
  { FieldName := f.DbTag,
    FieldType :=
      if fillSQLTypes then
        if f.Name = "Id" then (ID_AUTO_INCREMENT.lookup driverName).getD ""
        else mapDataType SQL_DATA_TYPES f.TypeString
      else f.TypeString,
    FieldValue := f.Value.format }

/-- A valid annotated flat record: a struct none of whose fields is a struct,
all of whose fields are exported and carry a non-empty column annotation. -/
def validRecord (obj : GoObject) : Prop :=
  obj.Kind = Kind.Struct ∧
    ∀ f ∈ obj.Fields, f.Kind ≠ Kind.Struct ∧ f.PkgPath = "" ∧ f.DbTag ≠ ""

/-- The type string of the predeclared type of a scalar kind; composite kinds
have none. -/
def predeclaredName : Kind → Option String
  | .Bool => some "bool"
  | .Int => some "int"
  | .Int8 => some "int8"
  | .Int16 => some "int16"
  | .Int32 => some "int32"
  | .Int64 => some "int64"
  | .Uint => some "uint"
  | .Uint8 => some "uint8"
  | .Uint16 => some "uint16"
  | .Uint32 => some "uint32"
  | .Uint64 => some "uint64"
  | .Uintptr => some "uintptr"
  | .Float32 => some "float32"
  | .Float64 => some "float64"
  | .Complex64 => some "complex64"
  | .Complex128 => some "complex128"
  | .String => some "string"
  | _ => none

/-- The type table in the words of the specification: every integer-like kind
gives `INTEGER`, every floating-point kind `REAL`, string `TEXT`, and any other
kind `TEXT`. -/
def specSQLType : Kind → String
  | .Int | .Int8 | .Int16 | .Int32 | .Int64 => "INTEGER"
  | .Uint | .Uint8 | .Uint16 | .Uint32 | .Uint64 => "INTEGER"
  | .Float32 | .Float64 => "REAL"
  | .String => "TEXT"
  | _ => "TEXT"

/-- The kinds whose mapping is decided by the comparison
`strings.HasPrefix(goDT, fieldType)` having its arguments in this order: the
sized integers and the floats. -/
def prefixFamily : List Kind :=
  [Kind.Int8, Kind.Int16, Kind.Int32, Kind.Int64, Kind.Float32, Kind.Float64]

/-- Two columns cannot be told apart by the builders' tests on values: they
have the same name, and their values agree on being empty and on being `"0"`. -/
def sameColumnShape (a b : StructFieldsInfo) : Prop :=
  a.FieldName = b.FieldName ∧ (a.FieldValue = "" ↔ b.FieldValue = "") ∧
    (a.FieldValue = "0" ↔ b.FieldValue = "0")

/-- Two descriptors have the same table name and, column by column in order,
the same column shape. -/
def sameShape (d e : StructInfo) : Prop :=
  d.StructName = e.StructName ∧
    List.Forall₂ sameColumnShape d.StructFieldsInfo e.StructFieldsInfo

/-- A rune table for worked examples: the Latin-1 rows of Unicode's lower-case
mapping (`À`..`Þ` without `×` go to `à`..`þ`); every other rune is left as it
is. -/
def latin1Lower (r : Char) : Char :=
  if 192 ≤ r.toNat ∧ r.toNat ≤ 222 ∧ r.toNat ≠ 215 then Char.ofNat (r.toNat + 32) else r

/-- A string ends in `s`. -/
def endsInS (s : String) : Prop := ∃ t : String, s = t ++ "s"

/-! ## The records of the test file -/

/-- The test file's `Book` struct holding the given field values. -/
def Book (Id : Int) (Author DatePublished Title Genre Preface : String) : GoObject :=
  { Name := "Book", Kind := Kind.Struct,
    Fields :=
      [⟨"Id", "", "id", Kind.Int, "int", GoValue.int Id⟩,
       ⟨"Author", "", "author", Kind.String, "string", GoValue.str Author⟩,
       ⟨"DatePublished", "", "date_published", Kind.String, "string", GoValue.str DatePublished⟩,
       ⟨"Title", "", "title", Kind.String, "string", GoValue.str Title⟩,
       ⟨"Genre", "", "genre", Kind.String, "string", GoValue.str Genre⟩,
       ⟨"Preface", "", "preface", Kind.String, "string", GoValue.str Preface⟩] }

/-- The descriptor `ExtractTableStructInfo(b, false, _)` returns for a `Book`. -/
def bookInfo (Id : Int) (Author DatePublished Title Genre Preface : String) : StructInfo :=
  { StructName := "books",
    StructFieldsInfo :=
      [⟨"id", "int", toString Id⟩, ⟨"author", "string", Author⟩,
       ⟨"date_published", "string", DatePublished⟩, ⟨"title", "string", Title⟩,
       ⟨"genre", "string", Genre⟩, ⟨"preface", "string", Preface⟩] }

/-- The descriptors of the three books the setup functions insert. -/
def setupBooks : List StructInfo :=
  [bookInfo 0 "Alin Devon" "2056-34-34" "Python Tutorial" "Programming" "Learning Python",
   bookInfo 0 "Cornel Marcon" "2020-05-23" "SQL Tutorial" "SQL" "Learning SQLITE3",
   bookInfo 0 "Razvan Rapden" "2020-23-04" "Java Tutorial" "Programming" "Learning Java"]

/-- A record `Stock{Id: 0, Count: 7, Price: 1.5}` of the Go type
`struct { Id int; Count uint; Price float64 }` annotated `id`, `count`,
`price`. -/
def stockRecord : GoObject :=
  { Name := "Stock", Kind := Kind.Struct,
    Fields :=
      [⟨"Id", "", "id", Kind.Int, "int", GoValue.int 0⟩,
       ⟨"Count", "", "count", Kind.Uint, "uint", GoValue.int 7⟩,
       ⟨"Price", "", "price", Kind.Float64, "float64", GoValue.other "1.5"⟩] }

/-- A record `Entry{Key: 0}` of the Go type `struct { Key int }` whose only
field is annotated `id`. -/
def entryRecord : GoObject :=
  { Name := "Entry", Kind := Kind.Struct,
    Fields := [⟨"Key", "", "id", Kind.Int, "int", GoValue.int 0⟩] }

/-- The record of the end-to-end scenarios: type `Book` with the fields
`Id int`, `Author string`, `Title string` annotated `id`, `author`, `title`. -/
def scenarioBook (Id : Int) (Author Title : String) : GoObject :=
  { Name := "Book", Kind := Kind.Struct,
    Fields :=
      [⟨"Id", "", "id", Kind.Int, "int", GoValue.int Id⟩,
       ⟨"Author", "", "author", Kind.String, "string", GoValue.str Author⟩,
       ⟨"Title", "", "title", Kind.String, "string", GoValue.str Title⟩] }

/-- A record `Note{text: "x"}` of the Go type `struct { text string }` in
package `main`: its only field is unexported and annotated `text`. -/
def noteRecord : GoObject :=
  { Name := "Note", Kind := Kind.Struct,
    Fields := [⟨"text", "main", "text", Kind.String, "string", GoValue.str "x"⟩] }

/-- A record `Pair{First: "a", Second: "b"}` of the Go type
`struct { First string; Second string }` whose two fields are both annotated
`name`. -/
def pairRecord : GoObject :=
  { Name := "Pair", Kind := Kind.Struct,
    Fields :=
      [⟨"First", "", "name", Kind.String, "string", GoValue.str "a"⟩,
       ⟨"Second", "", "name", Kind.String, "string", GoValue.str "b"⟩] }

/-! ## Helper lemmas -/

theorem findStep_foldl (driverName : String) (fields : List StructFieldsInfo) (st : FindState) :
    fields.foldl (findStep driverName) st =
      { conditions := st.conditions ++
          numberedClauses driverName st.i (fields.filter isFilterColumn),
        args := st.args ++ (fields.filter isFilterColumn).map (·.FieldValue),
        i := st.i + (fields.filter isFilterColumn).length } := by
  induction fields generalizing st with
  | nil => simp [numberedClauses]
  | cons f fs ih =>
    rw [List.foldl_cons, ih]
    by_cases h1 : f.FieldName = "id" ∧ f.FieldValue = "0"
    · have hk : isFilterColumn f = false := by simp [isFilterColumn, h1.1, h1.2]
      simp [findStep, h1, hk]
    · by_cases h2 : f.FieldValue = ""
      · have hk : isFilterColumn f = false := by simp [isFilterColumn, h2]
        simp [findStep, h1, h2, hk]
      · have hk : isFilterColumn f = true := by
          simp only [isFilterColumn, Bool.and_eq_true, decide_eq_true_eq, Bool.not_eq_true']
          refine ⟨h2, ?_⟩
          by_cases hn : f.FieldName = "id"
          · have : f.FieldValue ≠ "0" := fun h => h1 ⟨hn, h⟩
            simp [this]
          · simp [hn]
        simp [findStep, h1, h2, hk, numberedClauses, List.enumFrom_cons, Nat.add_assoc,
          Nat.add_comm 1]

theorem isFilterColumn_iff (f : StructFieldsInfo) :
    isFilterColumn f = true ↔ f.FieldValue ≠ "" ∧ ¬(f.FieldName = "id" ∧ f.FieldValue = "0") := by
  simp only [isFilterColumn, Bool.and_eq_true, decide_eq_true_eq, Bool.not_eq_true',
    Bool.and_eq_false_iff, decide_eq_false_iff_not, not_and_or]

theorem isSetColumn_iff (f : StructFieldsInfo) :
    isSetColumn f = true ↔ f.FieldName ≠ "id" ∧ f.FieldValue ≠ "" := by
  simp [isSetColumn]

theorem deleteStep_foldl (driverName : String) (fields : List StructFieldsInfo)
    (st : DeleteState) :
    fields.foldl (deleteStep driverName) st =
      { conditions := st.conditions ++
          numberedClauses driverName st.argIndex (fields.filter isFilterColumn),
        args := st.args ++ (fields.filter isFilterColumn).map (·.FieldValue),
        argIndex := st.argIndex + (fields.filter isFilterColumn).length } := by
  induction fields generalizing st with
  | nil => simp [numberedClauses]
  | cons f fs ih =>
    rw [List.foldl_cons, ih]
    by_cases hk : isFilterColumn f = true
    · have h := (isFilterColumn_iff f).1 hk
      simp [deleteStep, h.1, h.2, hk, numberedClauses, List.enumFrom_cons, Nat.add_assoc,
        Nat.add_comm 1]
    · have hk2 : isFilterColumn f = false := by simpa using hk
      have h : f.FieldName = "id" ∧ f.FieldValue = "0" ∨ f.FieldValue = "" := by
        by_contra hc
        push_neg at hc
        exact hk ((isFilterColumn_iff f).2 ⟨hc.2, fun h => hc.1 h.1 h.2⟩)
      rcases h with h | h
      · simp [deleteStep, h.1, h.2, hk2]
      · simp [deleteStep, h, hk2]

theorem updateWhereStep_foldl (driverName : String) (fields : List StructFieldsInfo)
    (st : UpdateState) :
    fields.foldl (updateWhereStep driverName) st =
      { updates := st.updates,
        conditions := st.conditions ++
          numberedClauses driverName st.argIndex (fields.filter isFilterColumn),
        args := st.args ++ (fields.filter isFilterColumn).map (·.FieldValue),
        argIndex := st.argIndex + (fields.filter isFilterColumn).length } := by
  induction fields generalizing st with
  | nil => simp [numberedClauses]
  | cons f fs ih =>
    rw [List.foldl_cons, ih]
    by_cases hk : isFilterColumn f = true
    · have h := (isFilterColumn_iff f).1 hk
      simp [updateWhereStep, h.1, h.2, hk, numberedClauses, List.enumFrom_cons, Nat.add_assoc,
        Nat.add_comm 1]
    · have hk2 : isFilterColumn f = false := by simpa using hk
      have h : f.FieldName = "id" ∧ f.FieldValue = "0" ∨ f.FieldValue = "" := by
        by_contra hc
        push_neg at hc
        exact hk ((isFilterColumn_iff f).2 ⟨hc.2, fun h => hc.1 h.1 h.2⟩)
      rcases h with h | h
      · simp [updateWhereStep, h.1, h.2, hk2]
      · simp [updateWhereStep, h, hk2]

theorem updateSetStep_foldl (driverName : String) (fields : List StructFieldsInfo)
    (st : UpdateState) :
    fields.foldl (updateSetStep driverName) st =
      { updates := st.updates ++
          numberedClauses driverName st.argIndex (fields.filter isSetColumn),
        conditions := st.conditions,
        args := st.args ++ (fields.filter isSetColumn).map (·.FieldValue),
        argIndex := st.argIndex + (fields.filter isSetColumn).length } := by
  induction fields generalizing st with
  | nil => simp [numberedClauses]
  | cons f fs ih =>
    rw [List.foldl_cons, ih]
    by_cases hk : isSetColumn f = true
    · have h := (isSetColumn_iff f).1 hk
      simp [updateSetStep, h.1, h.2, hk, numberedClauses, List.enumFrom_cons, Nat.add_assoc,
        Nat.add_comm 1]
    · have hk2 : isSetColumn f = false := by simpa using hk
      have h : f.FieldName = "id" ∨ f.FieldValue = "" := by
        by_contra hc
        push_neg at hc
        exact hk ((isSetColumn_iff f).2 hc)
      by_cases hn : f.FieldName = "id"
      · simp [updateSetStep, hn, hk2]
      · have hv : f.FieldValue = "" := h.resolve_left hn
        simp [updateSetStep, hn, hv, hk2]

theorem numberedClauses_form (driverName : String) (start : Nat)
    (cols : List StructFieldsInfo) :
    numberedClauses driverName start cols =
      if driverName = "postgres" then
        (cols.enumFrom start).map (fun p => p.2.FieldName ++ " = " ++ ("$" ++ toString p.1))
      else cols.map (fun f => f.FieldName ++ " = " ++ "?") := by
  by_cases h : driverName = "postgres"
  · simp [numberedClauses, placeholder, h]
  · simp only [numberedClauses, placeholder, h, if_false]
    induction cols generalizing start with
    | nil => simp
    | cons c cs ih => simp [List.enumFrom_cons, ih]

theorem generateFindQuery_eq (info : StructInfo) (limit skip : Int) (driverName : String) :
    generateFindQuery info limit skip driverName =
      ("SELECT * FROM " ++ info.StructName ++ " WHERE " ++ whereClause driverName info ++
          (if limit > 0 then
            " LIMIT " ++ toString limit ++ (if skip > 0 then " OFFSET " ++ toString skip else "")
           else "") ++ ";",
        (filterColumns info).map (·.FieldValue)) := by
  simp only [generateFindQuery, findStep_foldl, whereClause, filterColumns, List.nil_append]
  by_cases hl : limit > 0
  · by_cases hs : skip > 0
    · simp [hl, hs, String.append_assoc]
    · simp [hl, hs, String.append_assoc]
  · simp [hl, String.append_assoc]

theorem generateDeleteQuery_eq (info : StructInfo) (driverName : String) :
    generateDeleteQuery info driverName =
      ("DELETE FROM " ++ info.StructName ++ " WHERE " ++ whereClause driverName info ++ ";",
        (filterColumns info).map (·.FieldValue)) := by
  simp [generateDeleteQuery, deleteStep_foldl, whereClause, filterColumns]

theorem generateUpdateQuery_eq (q d : StructInfo) (driverName : String) :
    generateUpdateQuery q d driverName =
      ("UPDATE " ++ d.StructName ++ " SET " ++
          ", ".intercalate (numberedClauses driverName 1 (setColumns d)) ++ " WHERE " ++
          " AND ".intercalate
            (numberedClauses driverName (1 + (setColumns d).length) (filterColumns q)) ++ ";",
        (setColumns d).map (·.FieldValue) ++ (filterColumns q).map (·.FieldValue)) := by
  simp [generateUpdateQuery, updateSetStep_foldl, updateWhereStep_foldl, setColumns,
    filterColumns]

theorem insertColumnsStep_foldl (fields : List StructFieldsInfo) (columns : List String) :
    fields.foldl insertColumnsStep columns =
      columns ++ (fields.filter (fun f => !decide (f.FieldName = "id"))).map (·.FieldName) := by
  induction fields generalizing columns with
  | nil => simp
  | cons f fs ih =>
    rw [List.foldl_cons, ih]
    by_cases hn : f.FieldName = "id"
    · simp [insertColumnsStep, hn]
    · simp [insertColumnsStep, hn]

theorem insertFieldStep_foldl_other (driverName : String) (hd : driverName ≠ "postgres")
    (fields : List StructFieldsInfo) (st : InsertRowState) :
    fields.foldl (insertFieldStep driverName) st =
      { tempValues := st.tempValues ++
          (fields.filter (fun f => !decide (f.FieldName = "id"))).map (fun _ => "?"),
        args := st.args ++
          (fields.filter (fun f => !decide (f.FieldName = "id"))).map (·.FieldValue) } := by
  induction fields generalizing st with
  | nil => simp
  | cons f fs ih =>
    rw [List.foldl_cons, ih]
    by_cases hn : f.FieldName = "id"
    · simp [insertFieldStep, hn]
    · simp [insertFieldStep, hn, hd]

theorem insertFieldStep_foldl_postgres (fields : List StructFieldsInfo) (st : InsertRowState) :
    fields.foldl (insertFieldStep "postgres") st =
      { tempValues := st.tempValues ++
          (List.range' (st.args.length + 1)
            (fields.filter (fun f => !decide (f.FieldName = "id"))).length).map
            (fun k => "$" ++ toString k),
        args := st.args ++
          (fields.filter (fun f => !decide (f.FieldName = "id"))).map (·.FieldValue) } := by
  induction fields generalizing st with
  | nil => simp
  | cons f fs ih =>
    rw [List.foldl_cons, ih]
    by_cases hn : f.FieldName = "id"
    · simp [insertFieldStep, hn]
    · simp [insertFieldStep, hn, List.range'_succ]

theorem insertRowStep_foldl_other (driverName : String) (hd : driverName ≠ "postgres")
    (infos : List StructInfo) (st : InsertState) :
    infos.foldl (insertRowStep driverName) st =
      { values := st.values ++
          infos.map (fun si => parenGroup ((nonIdColumns si).map (fun _ => "?"))),
        args := st.args ++
          (infos.map (fun si => (nonIdColumns si).map (·.FieldValue))).flatten } := by
  induction infos generalizing st with
  | nil => simp
  | cons si rest ih =>
    rw [List.foldl_cons, ih]
    simp [insertRowStep, insertFieldStep_foldl_other driverName hd, parenGroup, nonIdColumns]

theorem insertRowStep_foldl_postgres (infos : List StructInfo) (st : InsertState) :
    infos.foldl (insertRowStep "postgres") st =
      { values := st.values ++ (postgresGroups (st.args.length + 1) infos).map parenGroup,
        args := st.args ++
          (infos.map (fun si => (nonIdColumns si).map (·.FieldValue))).flatten } := by
  induction infos generalizing st with
  | nil => simp [postgresGroups]
  | cons si rest ih =>
    rw [List.foldl_cons, ih]
    simp [insertRowStep, insertFieldStep_foldl_postgres, parenGroup, nonIdColumns,
      postgresGroups, Nat.add_assoc, Nat.add_comm, Nat.add_left_comm]

theorem postgresGroups_lengths (start : Nat) (infos : List StructInfo) :
    (postgresGroups start infos).map List.length =
      infos.map (fun si => (nonIdColumns si).length) := by
  induction infos generalizing start with
  | nil => simp [postgresGroups]
  | cons si rest ih => simp [postgresGroups, ih]

theorem postgresGroups_flatten (start : Nat) (infos : List StructInfo) :
    (postgresGroups start infos).flatten =
      (List.range' start (infos.map (fun si => (nonIdColumns si).length)).sum).map
        (fun k => "$" ++ toString k) := by
  induction infos generalizing start with
  | nil => simp [postgresGroups]
  | cons si rest ih =>
    simp only [postgresGroups, List.flatten_cons, ih, List.map_cons, List.sum_cons]
    rw [← List.map_append, List.range'_append_1, Nat.add_comm]

theorem flatten_values_length (infos : List StructInfo) :
    ((infos.map (fun si => (nonIdColumns si).map (·.FieldValue))).flatten).length =
      (infos.map (fun si => (nonIdColumns si).length)).sum := by
  induction infos with
  | nil => simp
  | cons si rest ih => simp [ih]

theorem generateInsertQuery_other_eq (first : StructInfo) (rest : List StructInfo)
    (driverName : String) (hd : driverName ≠ "postgres") :
    generateInsertQuery (first :: rest) driverName =
      .ok ("INSERT INTO " ++ first.StructName ++ " (" ++
            ", ".intercalate ((nonIdColumns first).map (·.FieldName)) ++ ") VALUES " ++
            ", ".intercalate
              ((first :: rest).map
                (fun si => parenGroup ((nonIdColumns si).map (fun _ => "?")))) ++ ";",
          ((first :: rest).map (fun si => (nonIdColumns si).map (·.FieldValue))).flatten) := by
  simp only [generateInsertQuery, insertColumnsStep_foldl,
    insertRowStep_foldl_other driverName hd, nonIdColumns, List.nil_append]

theorem generateInsertQuery_postgres_eq (first : StructInfo) (rest : List StructInfo) :
    generateInsertQuery (first :: rest) "postgres" =
      .ok ("INSERT INTO " ++ first.StructName ++ " (" ++
            ", ".intercalate ((nonIdColumns first).map (·.FieldName)) ++ ") VALUES " ++
            ", ".intercalate ((postgresGroups 1 (first :: rest)).map parenGroup) ++ ";",
          ((first :: rest).map (fun si => (nonIdColumns si).map (·.FieldValue))).flatten) := by
  simp only [generateInsertQuery, insertColumnsStep_foldl, insertRowStep_foldl_postgres,
    nonIdColumns, List.nil_append, List.length_nil, Nat.zero_add]

theorem createColumnsStep_foldl (fields : List StructFieldsInfo) (columns : List String) :
    fields.foldl createColumnsStep columns =
      columns ++ fields.map (fun f => f.FieldName ++ " " ++ f.FieldType) := by
  induction fields generalizing columns with
  | nil => simp
  | cons f fs ih =>
    rw [List.foldl_cons, ih]
    simp [createColumnsStep]

theorem extractLoop_false_driver (driverName other : String) (fields : List GoField)
    (st : ExtractState) :
    extractLoop false driverName fields st = extractLoop false other fields st := by
  induction fields generalizing st with
  | nil => simp [extractLoop]
  | cons f fs ih =>
    simp only [extractLoop, Bool.false_eq_true, if_false]
    split
    · rfl
    · split
      · rfl
      · split
        · rfl
        · exact ih _

theorem ExtractTableStructInfo_false_driver (unicodeLower : Char → Char) (driverName other : String)
    (obj : Option GoObject) :
    ExtractTableStructInfo unicodeLower obj false driverName =
      ExtractTableStructInfo unicodeLower obj false other := by
  cases obj with
  | none => rfl
  | some o => simp only [ExtractTableStructInfo, extractLoop_false_driver driverName other]

theorem extractLoop_eq (fillSQLTypes : Bool) (driverName : String) (fields : List GoField)
    (st : ExtractState) :
    extractLoop fillSQLTypes driverName fields st =
      match fields.find? (fun f => !fieldAccepted f) with
      | some f => .error (fieldPanic f)
      | none =>
        .ok { fields := st.fields ++ fields.map (columnOf fillSQLTypes driverName),
              idFieldFound :=
                st.idFieldFound ||
                  (fillSQLTypes && fields.any (fun f => decide (f.Name = "Id"))) } := by
  induction fields generalizing st with
  | nil => simp [extractLoop]
  | cons f fs ih =>
    by_cases hk : f.Kind = Kind.Struct
    · simp [extractLoop, fieldAccepted, fieldPanic, hk]
    · by_cases hp : f.PkgPath = ""
      · by_cases ht : f.DbTag = ""
        · simp [extractLoop, fieldAccepted, fieldPanic, hk, hp, ht]
        · have hacc : fieldAccepted f = true := by simp [fieldAccepted, hk, hp, ht]
          simp only [extractLoop, hk, hp, ht, if_false, ne_eq, not_true_eq_false, ih,
            List.find?_cons, hacc, Bool.not_true]
          cases hfind : List.find? (fun f => !fieldAccepted f) fs with
          | some g => rfl
          | none =>
            cases fillSQLTypes
            · simp [columnOf]
            · by_cases hn : f.Name = "Id"
              · simp [columnOf, hn]
              · simp [columnOf, hn]
      · simp [extractLoop, fieldAccepted, fieldPanic, hk, hp]

theorem ExtractTableStructInfo_eq (unicodeLower : Char → Char)
    (obj : GoObject) (fillSQLTypes : Bool) (driverName : String) :
    ExtractTableStructInfo unicodeLower (some obj) fillSQLTypes driverName =
      if obj.Kind ≠ Kind.Struct then .error Panic.notAStruct
      else
        match obj.Fields.find? (fun f => !fieldAccepted f) with
        | some f => .error (fieldPanic f)
        | none =>
          if fillSQLTypes && !obj.Fields.any (fun f => decide (f.Name = "Id")) then
            .error Panic.idFieldMissing
          else
            .ok { StructName := tableName unicodeLower obj.Name,
                  StructFieldsInfo := obj.Fields.map (columnOf fillSQLTypes driverName) } := by
  by_cases hk : obj.Kind = Kind.Struct
  · simp only [ExtractTableStructInfo, hk, ne_eq, not_true_eq_false, if_false, extractLoop_eq]
    cases hfind : List.find? (fun f => !fieldAccepted f) obj.Fields with
    | some g => rfl
    | none =>
      cases fillSQLTypes
      · simp
      · cases hany : obj.Fields.any (fun f => decide (f.Name = "Id")) <;> simp [hany]
  · simp [ExtractTableStructInfo, hk]

theorem validRecord_find (obj : GoObject) (hv : validRecord obj) :
    obj.Fields.find? (fun f => !fieldAccepted f) = none := by
  rw [List.find?_eq_none]
  intro f hf
  have h := hv.2 f hf
  simp [fieldAccepted, h.1, h.2.1, h.2.2]

theorem ExtractTableStructInfo_valid (unicodeLower : Char → Char)
    (obj : GoObject) (fillSQLTypes : Bool)
    (driverName : String) (hv : validRecord obj) :
    ExtractTableStructInfo unicodeLower (some obj) fillSQLTypes driverName =
      if fillSQLTypes && !obj.Fields.any (fun f => decide (f.Name = "Id")) then
        .error Panic.idFieldMissing
      else
        .ok { StructName := tableName unicodeLower obj.Name,
              StructFieldsInfo := obj.Fields.map (columnOf fillSQLTypes driverName) } := by
  rw [ExtractTableStructInfo_eq, validRecord_find obj hv]
  simp [hv.1]

theorem ExtractTableStructInfo_ok_columns (unicodeLower : Char → Char)
    (obj : GoObject) (fillSQLTypes : Bool)
    (driverName : String) (info : StructInfo)
    (h : ExtractTableStructInfo unicodeLower (some obj) fillSQLTypes driverName = .ok info) :
    info = { StructName := tableName unicodeLower obj.Name,
             StructFieldsInfo := obj.Fields.map (columnOf fillSQLTypes driverName) } := by
  rw [ExtractTableStructInfo_eq] at h
  split at h
  · cases h
  · split at h
    · cases h
    · split at h
      · cases h
      · injection h with h
        exact h.symm

theorem lookup_autoIncrement (D : Dialect) :
    (ID_AUTO_INCREMENT.lookup D.driverName).getD "" = D.autoIncrement := by
  cases D <;> rfl

/-! Go ranges over a map in an unspecified order.  For a non-empty type string
at most one key of `SQL_DATA_TYPES` has it as a prefix, so the order in which
the entries are visited does not change the outcome of the mapping loop. -/

theorem find?_perm_unique {α : Type} (p : α → Bool) (l l2 : List α) (h : l.Perm l2)
    (huniq : ∀ a ∈ l, ∀ b ∈ l, p a = true → p b = true → a = b) :
    l.find? p = l2.find? p := by
  cases h1 : l.find? p with
  | none =>
    symm
    rw [List.find?_eq_none] at h1 ⊢
    intro a ha
    exact h1 a (h.mem_iff.2 ha)
  | some a =>
    have ha : a ∈ l := List.mem_of_find?_eq_some h1
    have hpa : p a = true := List.find?_some h1
    cases h2 : l2.find? p with
    | none =>
      rw [List.find?_eq_none] at h2
      exact absurd hpa (h2 a (h.mem_iff.1 ha))
    | some b =>
      have hb : b ∈ l := h.mem_iff.2 (List.mem_of_find?_eq_some h2)
      have hpb : p b = true := List.find?_some h2
      rw [huniq a ha b hb hpa hpb]

theorem SQL_DATA_TYPES_unique (fieldType : String) (hne : fieldType ≠ "") :
    ∀ a ∈ SQL_DATA_TYPES, ∀ b ∈ SQL_DATA_TYPES,
      hasPrefix a.1 fieldType = true → hasPrefix b.1 fieldType = true → a = b := by
  obtain ⟨data⟩ := fieldType
  cases data with
  | nil => exact absurd rfl hne
  | cons c cs =>
    intro a ha b hb
    simp only [SQL_DATA_TYPES, List.mem_cons, List.mem_singleton, List.not_mem_nil, or_false] at ha hb
    rcases ha with rfl | rfl | rfl <;> rcases hb with rfl | rfl | rfl <;>
      simp [hasPrefix, List.isPrefixOf] <;> intro h1 _ h2 <;> simp [h1] at h2

theorem mapDataType_order (entries : List (String × String))
    (hperm : entries.Perm SQL_DATA_TYPES) (fieldType : String) (hne : fieldType ≠ "") :
    mapDataType entries fieldType = mapDataType SQL_DATA_TYPES fieldType := by
  unfold mapDataType
  rw [find?_perm_unique _ entries SQL_DATA_TYPES hperm]
  intro a ha b hb
  exact SQL_DATA_TYPES_unique fieldType hne a (hperm.mem_iff.1 ha) b (hperm.mem_iff.1 hb)

/-- The comparison of line 72 has the map key as the string and the field's
type as the prefix: `float64` and `int64` find no entry and fall to the default
`TEXT`, although `float` and `int` are prefixes of them. -/
theorem mapDataType_sized_types :
    mapDataType SQL_DATA_TYPES "float64" = "TEXT" ∧ hasPrefix "float64" "float" = true ∧
      mapDataType SQL_DATA_TYPES "int64" = "TEXT" ∧ hasPrefix "int64" "int" = true ∧
      specSQLType Kind.Float64 = "REAL" ∧ specSQLType Kind.Int64 = "INTEGER" := by
  decide

theorem fieldAccepted_iff (f : GoField) :
    fieldAccepted f = true ↔ f.Kind ≠ Kind.Struct ∧ f.PkgPath = "" ∧ f.DbTag ≠ "" := by
  simp [fieldAccepted, and_assoc]

theorem find_first_rejected (pre post : List GoField) (f : GoField)
    (hpre : ∀ g ∈ pre, g.Kind ≠ Kind.Struct ∧ g.PkgPath = "" ∧ g.DbTag ≠ "")
    (hf : fieldAccepted f = false) :
    (pre ++ f :: post).find? (fun g => !fieldAccepted g) = some f := by
  have h1 : pre.find? (fun g => !fieldAccepted g) = none := by
    rw [List.find?_eq_none]
    intro g hg
    simp [(fieldAccepted_iff g).2 (hpre g hg)]
  simp [List.find?_append, h1, List.find?_cons, hf]

theorem ExtractTableStructInfo_ok_iff (unicodeLower : Char → Char)
    (obj : GoObject) (fillSQLTypes : Bool)
    (driverName : String) :
    (∃ info, ExtractTableStructInfo unicodeLower (some obj) fillSQLTypes driverName = .ok info) ↔
      obj.Kind = Kind.Struct ∧
        (∀ f ∈ obj.Fields, f.Kind ≠ Kind.Struct ∧ f.PkgPath = "" ∧ f.DbTag ≠ "") ∧
        (fillSQLTypes = false ∨ ∃ f ∈ obj.Fields, f.Name = "Id") := by
  constructor
  · rintro ⟨info, h⟩
    rw [ExtractTableStructInfo_eq] at h
    split at h
    · cases h
    · rename_i hk
      split at h
      · cases h
      · rename_i hfind
        split at h
        · cases h
        · rename_i hid
          refine ⟨by simpa using hk, ?_, ?_⟩
          · intro f hf
            rw [List.find?_eq_none] at hfind
            have := hfind f hf
            exact (fieldAccepted_iff f).1 (by simpa using this)
          · cases fillSQLTypes
            · exact Or.inl rfl
            · right
              simpa using hid
  · rintro ⟨hk, hfields, hid⟩
    rw [ExtractTableStructInfo_valid unicodeLower obj fillSQLTypes driverName ⟨hk, hfields⟩]
    rcases hid with hid | ⟨f, hf, hn⟩
    · subst hid
      exact ⟨_, rfl⟩
    · have hany : obj.Fields.any (fun f => decide (f.Name = "Id")) = true := by
        simp only [List.any_eq_true, decide_eq_true_eq]
        exact ⟨f, hf, hn⟩
      simp [hany]

theorem char_toLower_idem (c : Char) : c.toLower.toLower = c.toLower := by
  by_cases h : c.toNat ≥ 65 ∧ c.toNat ≤ 90
  · obtain ⟨h1, h2⟩ := h
    have hc : c = Char.ofNat c.toNat := by simp
    generalize hn : c.toNat = n at hc h1 h2
    subst hc
    interval_cases n <;> rfl
  · have hc : c.toLower = c := by
      unfold Char.toLower
      exact if_neg h
    rw [hc, hc]

theorem runeToLower_ascii (unicodeLower : Char → Char) (r : Char) (h : r.toNat ≤ 127) :
    runeToLower unicodeLower r = r.toLower := by
  simp [runeToLower, h]

theorem char_toLower_ascii (r : Char) (ha : r.toNat ≤ 127) : r.toLower.toNat ≤ 127 := by
  by_cases hu : r.toNat ≥ 65 ∧ r.toNat ≤ 90
  · obtain ⟨hu1, hu2⟩ := hu
    have hc : r = Char.ofNat r.toNat := by simp
    generalize r.toNat = n at hc hu1 hu2
    subst hc
    interval_cases n <;> decide
  · have hc : r.toLower = r := by
      unfold Char.toLower
      exact if_neg hu
    rw [hc]
    exact ha

theorem runeToLower_idem_ascii (unicodeLower : Char → Char) (r : Char) (ha : r.toNat ≤ 127) :
    runeToLower unicodeLower (runeToLower unicodeLower r) = runeToLower unicodeLower r := by
  rw [runeToLower_ascii _ r ha, runeToLower_ascii _ _ (char_toLower_ascii r ha),
    char_toLower_idem]

theorem toLower_idem (unicodeLower : Char → Char) (s : String)
    (hidem : ∀ r ∈ s.data, runeToLower unicodeLower (runeToLower unicodeLower r) =
      runeToLower unicodeLower r) :
    toLower unicodeLower (toLower unicodeLower s) = toLower unicodeLower s := by
  apply String.ext
  simp only [toLower, List.map_map]
  apply List.map_congr_left
  intro c hc
  exact hidem c hc

theorem toLower_append_s (unicodeLower : Char → Char) (s : String) :
    toLower unicodeLower (s ++ "s") = toLower unicodeLower s ++ "s" := by
  apply String.ext
  have hs : runeToLower unicodeLower 's' = 's' := rfl
  simp [toLower, hs]

theorem hasSuffix_append_self (s p : String) : hasSuffix (s ++ p) p = true := by
  simp [hasSuffix]

theorem hasSuffix_s_iff (s : String) : hasSuffix s "s" = true ↔ endsInS s := by
  unfold hasSuffix endsInS
  rw [List.isSuffixOf_iff_suffix]
  constructor
  · rintro ⟨t, ht⟩
    refine ⟨⟨t⟩, ?_⟩
    apply String.ext
    simp [← ht]
  · rintro ⟨t, ht⟩
    refine ⟨t.data, ?_⟩
    rw [ht]
    simp

theorem tableName_eq (unicodeLower : Char → Char) (n : String) :
    tableName unicodeLower n =
      if hasSuffix (toLower unicodeLower n) "s" = true then toLower unicodeLower n
      else toLower unicodeLower n ++ "s" := by
  unfold tableName
  cases h : hasSuffix (toLower unicodeLower n) "s" <;> simp [h]

theorem tableName_hasSuffix (unicodeLower : Char → Char) (n : String) :
    hasSuffix (tableName unicodeLower n) "s" = true := by
  rw [tableName_eq]
  split
  · assumption
  · exact hasSuffix_append_self _ _

theorem tableName_idem (unicodeLower : Char → Char) (n : String)
    (hidem : ∀ r ∈ n.data, runeToLower unicodeLower (runeToLower unicodeLower r) =
      runeToLower unicodeLower r) :
    tableName unicodeLower (tableName unicodeLower n) = tableName unicodeLower n := by
  have h := tableName_hasSuffix unicodeLower n
  have hl : toLower unicodeLower (tableName unicodeLower n) = tableName unicodeLower n := by
    rw [tableName_eq]
    split
    · exact toLower_idem unicodeLower n hidem
    · rw [toLower_append_s, toLower_idem unicodeLower n hidem]
  rw [tableName_eq unicodeLower (tableName unicodeLower n), hl, if_pos h]

theorem latin1Lower_idem (r : Char) :
    runeToLower latin1Lower (runeToLower latin1Lower r) = runeToLower latin1Lower r := by
  by_cases ha : r.toNat ≤ 127
  · exact runeToLower_idem_ascii latin1Lower r ha
  · have h1 : runeToLower latin1Lower r = latin1Lower r := by simp [runeToLower, ha]
    rw [h1]
    by_cases hu : 192 ≤ r.toNat ∧ r.toNat ≤ 222 ∧ r.toNat ≠ 215
    · obtain ⟨hu1, hu2, hu3⟩ := hu
      have hc : r = Char.ofNat r.toNat := by simp
      generalize r.toNat = n at hc hu1 hu2 hu3
      subst hc
      interval_cases n <;> rfl
    · have hc : latin1Lower r = r := by
        unfold latin1Lower
        exact if_neg hu
      rw [hc, h1, hc]

theorem ExtractTableStructInfo_ok_some (unicodeLower : Char → Char)
    (tableStruct : Option GoObject) (fillSQLTypes : Bool)
    (driverName : String) (info : StructInfo)
    (h : ExtractTableStructInfo unicodeLower tableStruct fillSQLTypes driverName = .ok info) :
    ∃ obj, tableStruct = some obj ∧
      info = { StructName := tableName unicodeLower obj.Name,
               StructFieldsInfo := obj.Fields.map (columnOf fillSQLTypes driverName) } ∧
      ∀ f ∈ obj.Fields, f.Kind ≠ Kind.Struct ∧ f.PkgPath = "" ∧ f.DbTag ≠ "" := by
  cases tableStruct with
  | none => cases h
  | some obj =>
    exact ⟨obj, rfl, ExtractTableStructInfo_ok_columns unicodeLower obj fillSQLTypes driverName info h,
      ((ExtractTableStructInfo_ok_iff unicodeLower obj fillSQLTypes driverName).1 ⟨info, h⟩).2.1⟩

theorem append_ne_empty (c : Char) (cs : List Char) (t : String) :
    (⟨c :: cs⟩ : String) ++ t ≠ "" := by
  intro h
  have h2 := congrArg String.data h
  simp at h2

theorem generateCreateTableSQL_ne_empty (info : StructInfo) (driverName : String)
    (h : driverName = "sqlite3" ∨ driverName = "postgres" ∨ driverName = "mysql") :
    generateCreateTableSQL info driverName ≠ "" := by
  rcases h with h | h | h <;> subst h <;>
    simp only [generateCreateTableSQL, String.append_assoc] <;>
    exact append_ne_empty _ _ _

theorem filterColumns_names_congr (l1 l2 : List StructFieldsInfo)
    (h : List.Forall₂ sameColumnShape l1 l2) :
    (l1.filter isFilterColumn).map (·.FieldName) =
      (l2.filter isFilterColumn).map (·.FieldName) := by
  induction h with
  | nil => rfl
  | @cons a b l1 l2 hab _ ih =>
    obtain ⟨hn, he, hz⟩ := hab
    have hk : isFilterColumn a = isFilterColumn b := by
      rw [Bool.eq_iff_iff, isFilterColumn_iff, isFilterColumn_iff, hn, ne_eq, ne_eq, he, hz]
    simp only [List.filter_cons, hk]
    split
    · simp [hn, ih]
    · exact ih

theorem setColumns_names_congr (l1 l2 : List StructFieldsInfo)
    (h : List.Forall₂ sameColumnShape l1 l2) :
    (l1.filter isSetColumn).map (·.FieldName) = (l2.filter isSetColumn).map (·.FieldName) := by
  induction h with
  | nil => rfl
  | @cons a b l1 l2 hab _ ih =>
    obtain ⟨hn, he, _⟩ := hab
    have hk : isSetColumn a = isSetColumn b := by
      rw [Bool.eq_iff_iff, isSetColumn_iff, isSetColumn_iff, hn, ne_eq, ne_eq, he]
    simp only [List.filter_cons, hk]
    split
    · simp [hn, ih]
    · exact ih

theorem nonIdColumns_names_congr (l1 l2 : List StructFieldsInfo)
    (h : List.Forall₂ sameColumnShape l1 l2) :
    (l1.filter (fun f => !decide (f.FieldName = "id"))).map (·.FieldName) =
      (l2.filter (fun f => !decide (f.FieldName = "id"))).map (·.FieldName) := by
  induction h with
  | nil => rfl
  | @cons a b l1 l2 hab _ ih =>
    obtain ⟨hn, _, _⟩ := hab
    simp only [List.filter_cons, hn]
    split
    · simp [hn, ih]
    · exact ih

theorem numberedClauses_names_congr (driverName : String) (start : Nat)
    (cols1 cols2 : List StructFieldsInfo)
    (h : cols1.map (·.FieldName) = cols2.map (·.FieldName)) :
    numberedClauses driverName start cols1 = numberedClauses driverName start cols2 := by
  induction cols1 generalizing cols2 start with
  | nil =>
    cases cols2 with
    | nil => rfl
    | cons _ _ => simp at h
  | cons a as ih =>
    cases cols2 with
    | nil => simp at h
    | cons b bs =>
      simp only [List.map_cons, List.cons.injEq] at h
      have := ih (start + 1) bs h.2
      simp only [numberedClauses, List.enumFrom_cons, List.map_cons, h.1] at this ⊢
      rw [this]

theorem names_length_congr (cols1 cols2 : List StructFieldsInfo)
    (h : cols1.map (·.FieldName) = cols2.map (·.FieldName)) : cols1.length = cols2.length := by
  have := congrArg List.length h
  simpa using this

theorem whereClause_congr (driverName : String) (d1 d2 : StructInfo) (h : sameShape d1 d2) :
    whereClause driverName d1 = whereClause driverName d2 := by
  unfold whereClause filterColumns
  rw [numberedClauses_names_congr driverName 1 _ _ (filterColumns_names_congr _ _ h.2)]

theorem nonIdColumns_length_congr (d1 d2 : StructInfo) (h : sameShape d1 d2) :
    (nonIdColumns d1).length = (nonIdColumns d2).length :=
  names_length_congr _ _ (nonIdColumns_names_congr _ _ h.2)

theorem postgresGroups_congr (start : Nat) (l1 l2 : List StructInfo)
    (h : List.Forall₂ sameShape l1 l2) : postgresGroups start l1 = postgresGroups start l2 := by
  induction h generalizing start with
  | nil => rfl
  | cons hab _ ih =>
    simp only [postgresGroups, nonIdColumns_length_congr _ _ hab, ih]

theorem questionGroups_congr (l1 l2 : List StructInfo) (h : List.Forall₂ sameShape l1 l2) :
    l1.map (fun si => parenGroup ((nonIdColumns si).map (fun _ => "?"))) =
      l2.map (fun si => parenGroup ((nonIdColumns si).map (fun _ => "?"))) := by
  induction h with
  | nil => rfl
  | @cons a b l1 l2 hab _ ih =>
    have hlen := nonIdColumns_length_congr _ _ hab
    have hrep : (nonIdColumns a).map (fun _ => "?") = (nonIdColumns b).map (fun _ => "?") := by
      rw [List.map_const', List.map_const', hlen]
    simp only [List.map_cons, hrep, ih]

theorem generateInsertQuery_text_congr (l1 l2 : List StructInfo) (driverName : String)
    (h : List.Forall₂ sameShape l1 l2) :
    (generateInsertQuery l1 driverName).map (·.1) =
      (generateInsertQuery l2 driverName).map (·.1) := by
  cases h with
  | nil => rfl
  | @cons a b l1 l2 hab hrest =>
    have hall : List.Forall₂ sameShape (a :: l1) (b :: l2) := List.Forall₂.cons hab hrest
    have hnames : (nonIdColumns a).map (·.FieldName) = (nonIdColumns b).map (·.FieldName) :=
      nonIdColumns_names_congr _ _ hab.2
    by_cases hd : driverName = "postgres"
    · subst hd
      rw [generateInsertQuery_postgres_eq, generateInsertQuery_postgres_eq,
        postgresGroups_congr 1 _ _ hall, hnames, hab.1]
      rfl
    · rw [generateInsertQuery_other_eq a l1 driverName hd,
        generateInsertQuery_other_eq b l2 driverName hd, questionGroups_congr _ _ hall, hnames,
        hab.1]
      rfl

theorem insertManyLoop_length (unicodeLower : Char → Char)
    (driverName : String) (tablesStructs : List (Option GoObject))
    (acc structInfos : List StructInfo)
    (h : insertManyLoop unicodeLower driverName tablesStructs acc = .ok structInfos) :
    structInfos.length = acc.length + tablesStructs.length := by
  induction tablesStructs generalizing acc with
  | nil =>
    simp only [insertManyLoop] at h
    injection h with h
    subst h
    simp
  | cons t rest ih =>
    simp only [insertManyLoop] at h
    split at h
    · cases h
    · have := ih _ h
      simp at this ⊢
      omega

/-! ## The statements of the test file -/

theorem setupPostgres_insert :
    (generateInsertQuery setupBooks "postgres").map (·.1) =
      .ok ("INSERT INTO books (author, date_published, title, genre, preface) VALUES " ++
        "($1, $2, $3, $4, $5), ($6, $7, $8, $9, $10), ($11, $12, $13, $14, $15);") :=
  rfl

theorem testFindManyLimitSkip_statement (unicodeLower : Char → Char) :
    FindManyLimitSkip unicodeLower "sqlite3" (some (Book 0 "" "" "" "Programming" "")) 2 0 =
      .ok ("SELECT * FROM books WHERE genre = ? LIMIT 2;", ["Programming"]) :=
  rfl

theorem testUpdateManyPostgres_statement :
    generateUpdateQuery (bookInfo 0 "Alin Dev" "" "" "" "")
        (bookInfo 0 "Alin Developer" "" "" "" "") "postgres" =
      ("UPDATE books SET author = $1 WHERE author = $2;", ["Alin Developer", "Alin Dev"]) :=
  rfl

theorem setupSqlite3_insertMany (unicodeLower : Char → Char) :
    InsertMany unicodeLower "sqlite3"
        [some (Book 0 "Alin Devon" "2056-34-34" "Python Tutorial" "Programming" "Learning Python"),
         some (Book 0 "Cornel Marcon" "2020-05-23" "SQL Tutorial" "SQL" "Learning SQLITE3")] =
      .ok ("INSERT INTO books (author, date_published, title, genre, preface) VALUES " ++
            "(?, ?, ?, ?, ?), (?, ?, ?, ?, ?);",
          ["Alin Devon", "2056-34-34", "Python Tutorial", "Programming", "Learning Python",
           "Cornel Marcon", "2020-05-23", "SQL Tutorial", "SQL", "Learning SQLITE3"]) :=
  rfl

/-! ## The claims -/

/-- C2: for a non-empty list of descriptors and any driver other than postgres
(sqlite3, mysql), `generateInsertQuery` returns `INSERT INTO <table of the
first> (<cols>) VALUES <group1>, <group2>, ...;` where `<cols>` is the
', '-join of the first descriptor's column names without `id`, there is one
parenthesised group per descriptor made of one `?` per non-`id` column joined
by ', ', and the arguments are the non-`id` values in descriptor order, then
column order. -/
theorem generateInsertQuery_question_marks (first : StructInfo) (rest : List StructInfo)
    (driverName : String) (hd : driverName ≠ "postgres") :
    generateInsertQuery (first :: rest) driverName =
        .ok ("INSERT INTO " ++ first.StructName ++ " (" ++
              ", ".intercalate ((nonIdColumns first).map (·.FieldName)) ++ ") VALUES " ++
              ", ".intercalate
                ((first :: rest).map
                  (fun si =>
                    "(" ++ ", ".intercalate ((nonIdColumns si).map (fun _ => "?")) ++ ")")) ++
              ";",
            ((first :: rest).map (fun si => (nonIdColumns si).map (·.FieldValue))).flatten) ∧
      (∀ si f, f ∈ nonIdColumns si ↔ f ∈ si.StructFieldsInfo ∧ f.FieldName ≠ "id") ∧
      (∀ si, (nonIdColumns si).Sublist si.StructFieldsInfo) := by
  refine ⟨?_, ?_, fun si => List.filter_sublist _⟩
  · simpa [parenGroup] using generateInsertQuery_other_eq first rest driverName hd
  · intro si f
    simp [nonIdColumns, List.mem_filter]

/-- C2, at the three `Book` records of `setupSqlite3`: five columns, three
groups of five `?` and fifteen arguments. -/
theorem generateInsertQuery_question_marks_setup :
    "sqlite3" ≠ "postgres" ∧
      generateInsertQuery setupBooks "sqlite3" =
        .ok ("INSERT INTO books (author, date_published, title, genre, preface) VALUES " ++
              "(?, ?, ?, ?, ?), (?, ?, ?, ?, ?), (?, ?, ?, ?, ?);",
            ["Alin Devon", "2056-34-34", "Python Tutorial", "Programming", "Learning Python",
             "Cornel Marcon", "2020-05-23", "SQL Tutorial", "SQL", "Learning SQLITE3",
             "Razvan Rapden", "2020-23-04", "Java Tutorial", "Programming", "Learning Java"]) :=
  ⟨by decide,
    (generateInsertQuery_question_marks
      (bookInfo 0 "Alin Devon" "2056-34-34" "Python Tutorial" "Programming" "Learning Python")
      [bookInfo 0 "Cornel Marcon" "2020-05-23" "SQL Tutorial" "SQL" "Learning SQLITE3",
       bookInfo 0 "Razvan Rapden" "2020-23-04" "Java Tutorial" "Programming" "Learning Java"]
      "sqlite3" (by decide)).1⟩

/-- C3: for a non-empty list of descriptors, `generateInsertQuery` with the
postgres driver emits value groups whose placeholders, read in order of
appearance across all groups, are `$1`, `$2`, ..., `$N`; the i-th group has one
placeholder per non-`id` column of the i-th descriptor, and `N` is the length
of the returned argument list, the total number of non-`id` columns. -/
theorem generateInsertQuery_postgres_numbering (first : StructInfo) (rest : List StructInfo) :
    ∃ (sql : String) (args : List String) (groups : List (List String)),
      generateInsertQuery (first :: rest) "postgres" = .ok (sql, args) ∧
      sql = "INSERT INTO " ++ first.StructName ++ " (" ++
              ", ".intercalate ((nonIdColumns first).map (·.FieldName)) ++ ") VALUES " ++
              ", ".intercalate
                (groups.map (fun g => "(" ++ ", ".intercalate g ++ ")")) ++ ";" ∧
      groups.map List.length = (first :: rest).map (fun si => (nonIdColumns si).length) ∧
      groups.flatten = (List.range args.length).map (fun k => "$" ++ toString (k + 1)) ∧
      args.length = ((first :: rest).map (fun si => (nonIdColumns si).length)).sum ∧
      args = ((first :: rest).map (fun si => (nonIdColumns si).map (·.FieldValue))).flatten := by
  refine ⟨_, _, postgresGroups 1 (first :: rest), generateInsertQuery_postgres_eq first rest,
    ?_, postgresGroups_lengths 1 _, ?_, flatten_values_length _, rfl⟩
  · rfl
  · rw [postgresGroups_flatten, flatten_values_length, List.range'_eq_map_range, List.map_map]
    apply List.map_congr_left
    intro k _
    simp [Nat.add_comm]

/-- C4: `generateUpdateQuery` returns `UPDATE <data table> SET <updates> WHERE
<conditions>;` where the updates are the ', '-join of `<name> = <placeholder>`
over the data descriptor's non-`id`, non-empty columns, the conditions the
' AND '-join over the query descriptor's filter columns, and the arguments the
SET values followed by the WHERE values.  For postgres the SET placeholders are
`$1..$k` and the WHERE placeholders continue with `$k+1..$k+m`; for any other
driver every placeholder is `?`. -/
theorem generateUpdateQuery_shape (q d : StructInfo) (driverName : String) :
    generateUpdateQuery q d driverName =
        ("UPDATE " ++ d.StructName ++ " SET " ++
            ", ".intercalate (numberedClauses driverName 1 (setColumns d)) ++ " WHERE " ++
            " AND ".intercalate
              (numberedClauses driverName (1 + (setColumns d).length) (filterColumns q)) ++ ";",
          (setColumns d).map (·.FieldValue) ++ (filterColumns q).map (·.FieldValue)) ∧
      (∀ f, f ∈ setColumns d ↔
        f ∈ d.StructFieldsInfo ∧ f.FieldName ≠ "id" ∧ f.FieldValue ≠ "") ∧
      (setColumns d).Sublist d.StructFieldsInfo ∧
      (∀ f, f ∈ filterColumns q ↔
        f ∈ q.StructFieldsInfo ∧ f.FieldValue ≠ "" ∧
          ¬(f.FieldName = "id" ∧ f.FieldValue = "0")) ∧
      (filterColumns q).Sublist q.StructFieldsInfo ∧
      (∀ start cols,
        numberedClauses driverName start cols =
          if driverName = "postgres" then
            (cols.enumFrom start).map
              (fun p => p.2.FieldName ++ " = " ++ ("$" ++ toString p.1))
          else cols.map (fun f => f.FieldName ++ " = " ++ "?")) := by
  refine ⟨generateUpdateQuery_eq q d driverName, ?_, List.filter_sublist _, ?_,
    List.filter_sublist _, fun start cols => numberedClauses_form driverName start cols⟩
  · intro f
    simp only [setColumns, List.mem_filter, isSetColumn_iff]
  · intro f
    simp only [filterColumns, List.mem_filter, isFilterColumn_iff]

/-- C5: `generateDeleteQuery` returns `DELETE FROM <table> WHERE <c>;` with
arguments `a`, where `<c>` and `a` are the condition string and arguments of
`generateFindQuery` for the same descriptor and driver (whatever the limit and
skip), and of `generateUpdateQuery` with that descriptor as query descriptor
when the data descriptor `e` contributes no SET clause. -/
theorem generateDeleteQuery_same_conditions (d e : StructInfo) (driverName : String)
    (limit skip : Int) (he : setColumns e = []) :
    ∃ c a,
      generateDeleteQuery d driverName = ("DELETE FROM " ++ d.StructName ++ " WHERE " ++ c ++ ";", a) ∧
      generateFindQuery d 0 0 driverName =
        ("SELECT * FROM " ++ d.StructName ++ " WHERE " ++ c ++ ";", a) ∧
      generateFindQuery d limit skip driverName =
        ("SELECT * FROM " ++ d.StructName ++ " WHERE " ++ c ++
            (if limit > 0 then
              " LIMIT " ++ toString limit ++
                (if skip > 0 then " OFFSET " ++ toString skip else "")
             else "") ++ ";", a) ∧
      generateUpdateQuery d e driverName =
        ("UPDATE " ++ e.StructName ++ " SET " ++ "" ++ " WHERE " ++ c ++ ";", a) ∧
      c = " AND ".intercalate (numberedClauses driverName 1 (filterColumns d)) ∧
      a = (filterColumns d).map (·.FieldValue) := by
  refine ⟨whereClause driverName d, (filterColumns d).map (·.FieldValue),
    generateDeleteQuery_eq d driverName, ?_, generateFindQuery_eq d limit skip driverName, ?_,
    rfl, rfl⟩
  · simpa using generateFindQuery_eq d 0 0 driverName
  · have hnil : ", ".intercalate (numberedClauses driverName 1 []) = "" := rfl
    rw [generateUpdateQuery_eq, he, hnil]
    simp [whereClause]

/-- C5, at the query `Book{Author: "Alin Developer"}` of the delete test and
the empty data record `Book{}`, which contributes no SET clause. -/
theorem generateDeleteQuery_same_conditions_book :
    setColumns (bookInfo 0 "" "" "" "" "") = [] ∧
      ∃ c a,
        generateDeleteQuery (bookInfo 0 "Alin Developer" "" "" "" "") "sqlite3" =
          ("DELETE FROM " ++ "books" ++ " WHERE " ++ c ++ ";", a) ∧
        generateFindQuery (bookInfo 0 "Alin Developer" "" "" "" "") 0 0 "sqlite3" =
          ("SELECT * FROM " ++ "books" ++ " WHERE " ++ c ++ ";", a) ∧
        generateFindQuery (bookInfo 0 "Alin Developer" "" "" "" "") 2 0 "sqlite3" =
          ("SELECT * FROM " ++ "books" ++ " WHERE " ++ c ++ " LIMIT 2" ++ ";", a) ∧
        generateUpdateQuery (bookInfo 0 "Alin Developer" "" "" "" "")
            (bookInfo 0 "" "" "" "" "") "sqlite3" =
          ("UPDATE " ++ "books" ++ " SET " ++ "" ++ " WHERE " ++ c ++ ";", a) ∧
        c = "author = ?" ∧ a = ["Alin Developer"] :=
  ⟨by decide,
    generateDeleteQuery_same_conditions (bookInfo 0 "Alin Developer" "" "" "" "")
      (bookInfo 0 "" "" "" "" "") "sqlite3" 2 0 (by decide)⟩

/-- C6: the delete-all statement is exactly `DELETE FROM <table>;`; it is the
same for any two descriptors with the same table name, whatever their columns,
and `DeleteAllRows` hands it to the database with an empty argument list, for
every driver alike. -/
theorem generateDeleteAllRowsQuery_shape (unicodeLower : Char → Char)
    (info : StructInfo) (cols : List StructFieldsInfo)
    (driverName other : String) (obj : Option GoObject) :
    generateDeleteAllRowsQuery info = "DELETE FROM " ++ info.StructName ++ ";" ∧
      generateDeleteAllRowsQuery ⟨info.StructName, cols⟩ = generateDeleteAllRowsQuery info ∧
      DeleteAllRows unicodeLower driverName obj =
        (ExtractTableStructInfo unicodeLower obj false driverName).map
          (fun i => ("DELETE FROM " ++ i.StructName ++ ";", [])) ∧
      DeleteAllRows unicodeLower driverName obj = DeleteAllRows unicodeLower other obj := by
  refine ⟨rfl, rfl, ?_, ?_⟩
  · unfold DeleteAllRows
    cases ExtractTableStructInfo unicodeLower obj false driverName <;> rfl
  · unfold DeleteAllRows
    rw [ExtractTableStructInfo_false_driver unicodeLower driverName other]

/-- C7: the statement of `generateFindQuery` is `SELECT * FROM <table> WHERE
<conditions>`, then ` LIMIT <limit>` exactly when `limit > 0`, then
` OFFSET <skip>` exactly when `limit > 0` and `skip > 0`, then `;`.  The
arguments do not depend on limit or skip.  `FindMany` asks for limit 0 and
skip 0, `FindOne` for limit 1 and skip 0. -/
theorem generateFindQuery_limit_offset (unicodeLower : Char → Char)
    (info : StructInfo) (limit skip limit2 skip2 : Int)
    (driverName : String) (obj : Option GoObject) :
    (generateFindQuery info limit skip driverName).1 =
        "SELECT * FROM " ++ info.StructName ++ " WHERE " ++
          " AND ".intercalate (numberedClauses driverName 1 (filterColumns info)) ++
          (if limit > 0 then " LIMIT " ++ toString limit else "") ++
          (if limit > 0 ∧ skip > 0 then " OFFSET " ++ toString skip else "") ++ ";" ∧
      (generateFindQuery info limit2 skip2 driverName).2 =
        (generateFindQuery info limit skip driverName).2 ∧
      FindMany unicodeLower driverName obj =
        (ExtractTableStructInfo unicodeLower obj false driverName).map
          (fun i => generateFindQuery i 0 0 driverName) ∧
      FindOne unicodeLower driverName obj =
        (ExtractTableStructInfo unicodeLower obj false driverName).map
          (fun i => generateFindQuery i 1 0 driverName) ∧
      FindManyLimitSkip unicodeLower driverName obj limit skip =
        (ExtractTableStructInfo unicodeLower obj false driverName).map
          (fun i => generateFindQuery i limit skip driverName) := by
  refine ⟨?_, ?_, ?_, ?_, ?_⟩
  · rw [generateFindQuery_eq]
    by_cases hl : limit > 0
    · by_cases hs : skip > 0
      · simp [hl, hs, whereClause, String.append_assoc]
      · simp [hl, hs, whereClause, String.append_assoc]
    · simp [hl, whereClause, String.append_assoc]
  · rw [generateFindQuery_eq, generateFindQuery_eq]
  · unfold FindMany FindManyLimitSkip
    cases ExtractTableStructInfo unicodeLower obj false driverName <;> rfl
  · unfold FindOne
    cases ExtractTableStructInfo unicodeLower obj false driverName <;> rfl
  · unfold FindManyLimitSkip
    cases ExtractTableStructInfo unicodeLower obj false driverName <;> rfl

/-- C8: `generateCreateTableSQL` builds the column block as the `,\n\t`-join of
`<name> <type>` over the columns in order and wraps it per dialect: sqlite in
`CREATE TABLE IF NOT EXISTS <table> (<columns>);`, mysql in the same statement
closed by `) ENGINE=InnoDB DEFAULT CHARSET=utf8;`, postgres with a conditional
`CREATE SEQUENCE <table>_id_seq` before the table and
`ALTER SEQUENCE <table>_id_seq OWNED BY <table>.id;` after it. -/
theorem generateCreateTableSQL_shape (info : StructInfo) :
    generateCreateTableSQL info Dialect.sqlite.driverName =
        "\nCREATE TABLE IF NOT EXISTS " ++ info.StructName ++ " (\n\t" ++
          ",\n\t".intercalate
            (info.StructFieldsInfo.map (fun f => f.FieldName ++ " " ++ f.FieldType)) ++
          "\n);" ∧
      generateCreateTableSQL info Dialect.mysql.driverName =
        "\nCREATE TABLE IF NOT EXISTS " ++ info.StructName ++ " (\n\t" ++
          ",\n\t".intercalate
            (info.StructFieldsInfo.map (fun f => f.FieldName ++ " " ++ f.FieldType)) ++
          "\n) ENGINE=InnoDB DEFAULT CHARSET=utf8;" ∧
      generateCreateTableSQL info Dialect.postgres.driverName =
        "\nDO\n$do$\nBEGIN\n   IF NOT EXISTS (\n      SELECT FROM pg_class c \n" ++
          "      WHERE c.relkind = 'S' \n      AND c.relname = '" ++ info.StructName ++
          "_id_seq'\n   ) THEN\n      CREATE SEQUENCE " ++ info.StructName ++
          "_id_seq;\n   END IF;\nEND\n$do$;\n" ++
          "CREATE TABLE IF NOT EXISTS " ++ info.StructName ++ " (\n\t" ++
          ",\n\t".intercalate
            (info.StructFieldsInfo.map (fun f => f.FieldName ++ " " ++ f.FieldType)) ++
          "\n);\n" ++
          "ALTER SEQUENCE " ++ info.StructName ++ "_id_seq OWNED BY " ++ info.StructName ++
          ".id;\n" := by
  refine ⟨?_, ?_, ?_⟩
  · simp [generateCreateTableSQL, Dialect.driverName, createColumnsStep_foldl, String.append_assoc]
  · simp [generateCreateTableSQL, Dialect.driverName, createColumnsStep_foldl, String.append_assoc]
  · simp [generateCreateTableSQL, Dialect.driverName, createColumnsStep_foldl, String.append_assoc]

/-- C9, as amended: for a field that is not named `Id` and whose type is the
predeclared type of a scalar kind outside the sized-integer and float
families, type resolution gives `INTEGER` for `int` and `TEXT` for every other
such kind (string, bool, the unsigned integers, the complex kinds). -/
theorem ExtractTableStructInfo_type_mapping (unicodeLower : Char → Char)
    (obj : GoObject) (driverName : String)
    (info : StructInfo) (i : Nat) (f : GoField) (k : Kind)
    (hex : ExtractTableStructInfo unicodeLower (some obj) true driverName = .ok info)
    (hf : obj.Fields[i]? = some f) (hid : f.Name ≠ "Id")
    (hk : predeclaredName k = some f.TypeString) (hfam : k ∉ prefixFamily) :
    (info.StructFieldsInfo[i]?).map (·.FieldType) =
      some (if k = Kind.Int then "INTEGER" else "TEXT") := by
  have hinfo := ExtractTableStructInfo_ok_columns unicodeLower obj true driverName info hex
  subst hinfo
  simp only [List.getElem?_map, hf, Option.map_some', columnOf, if_true, hid, if_false]
  congr 1
  cases k <;> simp [predeclaredName] at hk <;> simp [prefixFamily] at hfam <;>
    rw [← hk] <;> decide

/-- C9, as amended, at the `Count uint` field of `stockRecord`. -/
theorem ExtractTableStructInfo_type_mapping_stock :
    ExtractTableStructInfo latin1Lower (some stockRecord) true "sqlite3" =
        .ok ⟨"stocks",
          [⟨"id", "INTEGER PRIMARY KEY AUTOINCREMENT", "0"⟩, ⟨"count", "TEXT", "7"⟩,
           ⟨"price", "TEXT", "1.5"⟩]⟩ ∧
      ([⟨"id", "INTEGER PRIMARY KEY AUTOINCREMENT", "0"⟩, ⟨"count", "TEXT", "7"⟩,
          ⟨"price", "TEXT", "1.5"⟩][1]? : Option StructFieldsInfo).map (·.FieldType) =
        some (if Kind.Uint = Kind.Int then "INTEGER" else "TEXT") :=
  ⟨rfl,
    ExtractTableStructInfo_type_mapping latin1Lower stockRecord "sqlite3" _ 1
      ⟨"Count", "", "count", Kind.Uint, "uint", GoValue.int 7⟩ Kind.Uint rfl rfl (by decide) rfl
      (by decide)⟩

/-- C9 as stated fails, whatever the Unicode tables: the `Count uint` field of
`stockRecord` is given the type `TEXT`, not the `INTEGER` of the
specification's table. -/
theorem type_mapping_spec_table_fails :
    ¬ ∃ unicodeLower : Char → Char,
      ∀ (obj : GoObject) (driverName : String) (info : StructInfo) (i : Nat) (f : GoField)
        (k : Kind),
        ExtractTableStructInfo unicodeLower (some obj) true driverName = .ok info →
        obj.Fields[i]? = some f → f.Name ≠ "Id" → f.Kind = k →
        predeclaredName k = some f.TypeString →
        (info.StructFieldsInfo[i]?).map (·.FieldType) = some (specSQLType k) := by
  rintro ⟨unicodeLower, h⟩
  have h1 := h stockRecord "sqlite3"
    ⟨"stocks",
      [⟨"id", "INTEGER PRIMARY KEY AUTOINCREMENT", "0"⟩, ⟨"count", "TEXT", "7"⟩,
       ⟨"price", "TEXT", "1.5"⟩]⟩ 1
    ⟨"Count", "", "count", Kind.Uint, "uint", GoValue.int 7⟩ Kind.Uint rfl rfl (by decide) rfl rfl
  revert h1
  decide

/-- C10, as amended: the identity field is recognised by its Go field name
`Id`.  For a valid annotated flat record and each of the three dialects,
extraction with type resolution either returns a descriptor or fails with the
missing-identity panic, and it fails exactly when no field is named `Id`; on
success the column of every field named `Id` has the dialect's auto-increment
clause as its type.  When moreover the fields annotated `id` are exactly the
fields named `Id`, of which a Go struct has at most one, the descriptor has
exactly one column named `id`, of that type, and the failure occurs exactly
when no field is annotated `id`. -/
theorem ExtractTableStructInfo_identity (unicodeLower : Char → Char)
    (obj : GoObject) (D : Dialect) (hv : validRecord obj) :
    ((∃ info, ExtractTableStructInfo unicodeLower (some obj) true D.driverName = .ok info) ∨
        ExtractTableStructInfo unicodeLower (some obj) true D.driverName =
          .error Panic.idFieldMissing) ∧
      (ExtractTableStructInfo unicodeLower (some obj) true D.driverName =
        .error Panic.idFieldMissing ↔
        ∀ f ∈ obj.Fields, f.Name ≠ "Id") ∧
      (∀ info, ExtractTableStructInfo unicodeLower (some obj) true D.driverName = .ok info →
        ∀ (i : Nat) (f : GoField), obj.Fields[i]? = some f → f.Name = "Id" →
          info.StructFieldsInfo[i]? = some ⟨f.DbTag, D.autoIncrement, f.Value.format⟩) ∧
      ((∀ f ∈ obj.Fields, f.DbTag = "id" ↔ f.Name = "Id") →
        (obj.Fields.filter (fun f => decide (f.Name = "Id"))).length ≤ 1 →
        ((∃ info v, ExtractTableStructInfo unicodeLower (some obj) true D.driverName = .ok info ∧
            info.StructFieldsInfo.filter (fun c => decide (c.FieldName = "id")) =
              [⟨"id", D.autoIncrement, v⟩]) ∨
          ExtractTableStructInfo unicodeLower (some obj) true D.driverName =
            .error Panic.idFieldMissing) ∧
        (ExtractTableStructInfo unicodeLower (some obj) true D.driverName =
          .error Panic.idFieldMissing ↔
          ∀ f ∈ obj.Fields, f.DbTag ≠ "id")) := by
  have hE := ExtractTableStructInfo_valid unicodeLower obj true D.driverName hv
  have hfail : ExtractTableStructInfo unicodeLower (some obj) true D.driverName =
      .error Panic.idFieldMissing ↔ ∀ f ∈ obj.Fields, f.Name ≠ "Id" := by
    rw [hE]
    cases hany : obj.Fields.any (fun f => decide (f.Name = "Id"))
    · simp only [Bool.not_false, Bool.and_self, if_true, true_iff]
      simpa using hany
    · simp only [Bool.not_true, Bool.and_false, Bool.false_eq_true, if_false, false_iff]
      simpa using hany
  have hcol : ∀ info, ExtractTableStructInfo unicodeLower (some obj) true D.driverName = .ok info →
      info.StructFieldsInfo = obj.Fields.map (columnOf true D.driverName) := by
    intro info h
    rw [ExtractTableStructInfo_ok_columns unicodeLower obj true D.driverName info h]
  have hor : (∃ info, ExtractTableStructInfo unicodeLower (some obj) true D.driverName = .ok info) ∨
      ExtractTableStructInfo unicodeLower (some obj) true D.driverName =
        .error Panic.idFieldMissing := by
    rw [hE]
    split
    · exact Or.inr rfl
    · exact Or.inl ⟨_, rfl⟩
  refine ⟨hor, hfail, ?_, ?_⟩
  · intro info h i f hf hn
    rw [hcol info h, List.getElem?_map, hf]
    simp [columnOf, hn, lookup_autoIncrement]
  · intro htag huniq
    have hfail2 : ExtractTableStructInfo unicodeLower (some obj) true D.driverName =
        .error Panic.idFieldMissing ↔ ∀ f ∈ obj.Fields, f.DbTag ≠ "id" := by
      rw [hfail]
      constructor
      · intro h f hf ht
        exact h f hf ((htag f hf).1 ht)
      · intro h f hf hn
        exact h f hf ((htag f hf).2 hn)
    refine ⟨?_, hfail2⟩
    rcases hor with ⟨info, hinfo⟩ | herr
    · left
      have hfilter : info.StructFieldsInfo.filter (fun c => decide (c.FieldName = "id")) =
          (obj.Fields.filter (fun f => decide (f.Name = "Id"))).map
            (columnOf true D.driverName) := by
        rw [hcol info hinfo, List.filter_map]
        congr 1
        apply List.filter_congr
        intro f hf
        simp only [Function.comp, columnOf]
        exact decide_eq_decide.2 (htag f hf)
      have hex : ∃ f ∈ obj.Fields, f.Name = "Id" := by
        by_contra hno
        push_neg at hno
        rw [hfail.2 hno] at hinfo
        cases hinfo
      obtain ⟨f0, hf0, hn0⟩ := hex
      have hmem : f0 ∈ obj.Fields.filter (fun f => decide (f.Name = "Id")) := by
        simp [List.mem_filter, hf0, hn0]
      cases hl : obj.Fields.filter (fun f => decide (f.Name = "Id")) with
      | nil => rw [hl] at hmem; cases hmem
      | cons g gs =>
        rw [hl] at huniq hmem
        have hgs : gs = [] := by
          cases gs with
          | nil => rfl
          | cons _ _ => simp at huniq
        subst hgs
        have hg : g = f0 := by
          have := List.mem_singleton.1 hmem
          exact this.symm
        subst hg
        refine ⟨info, g.Value.format, hinfo, ?_⟩
        rw [hfilter, hl]
        simp [columnOf, hn0, lookup_autoIncrement, (htag g hf0).2 hn0]
    · exact Or.inr herr

/-- C10, as amended, at `Book{}` for the sqlite dialect. -/
theorem ExtractTableStructInfo_identity_book :
    validRecord (Book 0 "" "" "" "" "") ∧
      ((∃ info, ExtractTableStructInfo latin1Lower (some (Book 0 "" "" "" "" "")) true
            Dialect.sqlite.driverName = .ok info) ∨
        ExtractTableStructInfo latin1Lower (some (Book 0 "" "" "" "" ""))
          true Dialect.sqlite.driverName =
          .error Panic.idFieldMissing) ∧
      ExtractTableStructInfo latin1Lower (some (Book 0 "" "" "" "" ""))
        true Dialect.sqlite.driverName =
        .ok ⟨"books",
          [⟨"id", "INTEGER PRIMARY KEY AUTOINCREMENT", "0"⟩, ⟨"author", "TEXT", ""⟩,
           ⟨"date_published", "TEXT", ""⟩, ⟨"title", "TEXT", ""⟩, ⟨"genre", "TEXT", ""⟩,
           ⟨"preface", "TEXT", ""⟩]⟩ :=
  ⟨by simp [validRecord, Book],
    (ExtractTableStructInfo_identity latin1Lower (Book 0 "" "" "" "" "") Dialect.sqlite
      (by simp [validRecord, Book])).1,
    rfl⟩

/-- C10 as stated fails, whatever the Unicode tables: `entryRecord` is a valid
annotated flat record whose field `Key` maps to the column name `id`, yet
extraction with type resolution fails with the missing-identity panic. -/
theorem identity_by_column_name_fails :
    ¬ ∃ unicodeLower : Char → Char, ∀ (obj : GoObject) (D : Dialect), validRecord obj →
        ((∃ info v, ExtractTableStructInfo unicodeLower (some obj) true D.driverName = .ok info ∧
            info.StructFieldsInfo.filter (fun c => decide (c.FieldName = "id")) =
              [⟨"id", D.autoIncrement, v⟩]) ∨
          ExtractTableStructInfo unicodeLower (some obj) true D.driverName =
            .error Panic.idFieldMissing) ∧
        (ExtractTableStructInfo unicodeLower (some obj) true D.driverName =
          .error Panic.idFieldMissing ↔
          ∀ f ∈ obj.Fields, f.DbTag ≠ "id") := by
  rintro ⟨unicodeLower, h⟩
  have h1 := (h entryRecord Dialect.sqlite (by simp [validRecord, entryRecord])).2
  have h2 : ExtractTableStructInfo unicodeLower (some entryRecord) true Dialect.sqlite.driverName =
      .error Panic.idFieldMissing := rfl
  have h3 := h1.1 h2 ⟨"Key", "", "id", Kind.Int, "int", GoValue.int 0⟩ (by simp [entryRecord])
  exact h3 rfl

/-- C11, as amended: `ExtractTableStructInfo` succeeds exactly when the input
is a non-nil struct, every field is not of struct kind, exported and carries a
non-empty column annotation, and type resolution is off or a field is named
`Id`.  Otherwise the panic is that of the earliest violated check: the nil
input, then the input kind, then field by field in declaration order the
nested-field check, the read of the field's value (which panics on an
unexported field) and the annotation check, then the identity check.  Without
type resolution the missing-identity panic never occurs. -/
theorem ExtractTableStructInfo_outcome (unicodeLower : Char → Char)
    (tableStruct : Option GoObject) (fillSQLTypes : Bool)
    (driverName : String) :
    ((∃ info, ExtractTableStructInfo unicodeLower tableStruct fillSQLTypes driverName = .ok info) ↔
        ∃ obj, tableStruct = some obj ∧ obj.Kind = Kind.Struct ∧
          (∀ f ∈ obj.Fields, f.Kind ≠ Kind.Struct ∧ f.PkgPath = "" ∧ f.DbTag ≠ "") ∧
          (fillSQLTypes = false ∨ ∃ f ∈ obj.Fields, f.Name = "Id")) ∧
      (tableStruct = none →
        ExtractTableStructInfo unicodeLower tableStruct fillSQLTypes driverName =
          .error Panic.nilDereference) ∧
      (∀ obj, tableStruct = some obj → obj.Kind ≠ Kind.Struct →
        ExtractTableStructInfo unicodeLower tableStruct fillSQLTypes driverName =
          .error Panic.notAStruct) ∧
      (∀ obj pre f post, tableStruct = some obj → obj.Kind = Kind.Struct →
        obj.Fields = pre ++ f :: post →
        (∀ g ∈ pre, g.Kind ≠ Kind.Struct ∧ g.PkgPath = "" ∧ g.DbTag ≠ "") →
        (f.Kind = Kind.Struct →
          ExtractTableStructInfo unicodeLower tableStruct fillSQLTypes driverName =
            .error Panic.onlyFlatStructs) ∧
        (f.Kind ≠ Kind.Struct → f.PkgPath ≠ "" →
          ExtractTableStructInfo unicodeLower tableStruct fillSQLTypes driverName =
            .error Panic.unexportedField) ∧
        (f.Kind ≠ Kind.Struct → f.PkgPath = "" → f.DbTag = "" →
          ExtractTableStructInfo unicodeLower tableStruct fillSQLTypes driverName =
            .error Panic.dbTagMissing)) ∧
      (∀ obj, tableStruct = some obj → obj.Kind = Kind.Struct →
        (∀ f ∈ obj.Fields, f.Kind ≠ Kind.Struct ∧ f.PkgPath = "" ∧ f.DbTag ≠ "") →
        fillSQLTypes = true → (∀ f ∈ obj.Fields, f.Name ≠ "Id") →
        ExtractTableStructInfo unicodeLower tableStruct fillSQLTypes driverName =
          .error Panic.idFieldMissing) ∧
      ExtractTableStructInfo unicodeLower tableStruct false driverName ≠ .error Panic.idFieldMissing := by
  refine ⟨?_, ?_, ?_, ?_, ?_, ?_⟩
  · cases tableStruct with
    | none =>
      constructor
      · rintro ⟨info, h⟩
        cases h
      · rintro ⟨obj, h, _⟩
        cases h
    | some o =>
      rw [ExtractTableStructInfo_ok_iff]
      constructor
      · intro h
        exact ⟨o, rfl, h⟩
      · rintro ⟨obj, h, h2⟩
        cases h
        exact h2
  · intro h
    subst h
    rfl
  · intro obj h hk
    subst h
    simp [ExtractTableStructInfo, hk]
  · intro obj pre f post h hk hfields hpre
    subst h
    refine ⟨?_, ?_, ?_⟩
    · intro hf
      have hrej : fieldAccepted f = false := by simp [fieldAccepted, hf]
      rw [ExtractTableStructInfo_eq, hfields, find_first_rejected pre post f hpre hrej]
      simp [hk, fieldPanic, hf]
    · intro hf hp
      have hrej : fieldAccepted f = false := by simp [fieldAccepted, hf, hp]
      rw [ExtractTableStructInfo_eq, hfields, find_first_rejected pre post f hpre hrej]
      simp [hk, fieldPanic, hf, hp]
    · intro hf hp ht
      have hrej : fieldAccepted f = false := by simp [fieldAccepted, hf, hp, ht]
      rw [ExtractTableStructInfo_eq, hfields, find_first_rejected pre post f hpre hrej]
      simp [hk, fieldPanic, hf, hp]
  · intro obj h hk hfields hfill hid
    subst h
    subst hfill
    rw [ExtractTableStructInfo_valid unicodeLower obj true driverName ⟨hk, hfields⟩]
    have hany : obj.Fields.any (fun f => decide (f.Name = "Id")) = false := by
      rw [Bool.eq_false_iff]
      intro hc
      simp only [List.any_eq_true, decide_eq_true_eq] at hc
      obtain ⟨f, hf, hn⟩ := hc
      exact hid f hf hn
    simp [hany]
  · cases tableStruct with
    | none =>
      intro h
      cases h
    | some o =>
      rw [ExtractTableStructInfo_eq]
      split
      · intro h
        cases h
      · split
        · rename_i g hg
          intro h
          have hrej : fieldAccepted g = false := by
            simpa using List.find?_some hg
          injection h with h
          unfold fieldPanic at h
          split at h
          · cases h
          · split at h <;> cases h
        · simp

/-- C11 as stated fails, whatever the Unicode tables: `noteRecord` is a struct
whose only field is not of struct kind and carries the annotation `text`, and
type resolution is off, yet extraction panics, because the field is unexported
and its value cannot be read through `Interface()`. -/
theorem extract_success_condition_fails :
    ¬ ∃ unicodeLower : Char → Char,
      ∀ (tableStruct : Option GoObject) (fillSQLTypes : Bool) (driverName : String),
        (∃ info, ExtractTableStructInfo unicodeLower tableStruct fillSQLTypes driverName =
          .ok info) ↔
          ∃ obj, tableStruct = some obj ∧ obj.Kind = Kind.Struct ∧
            (∀ f ∈ obj.Fields, f.Kind ≠ Kind.Struct) ∧
            (∀ f ∈ obj.Fields, f.DbTag ≠ "") ∧
            (fillSQLTypes = false ∨ ∃ f ∈ obj.Fields, f.Name = "Id") := by
  rintro ⟨unicodeLower, h⟩
  have h1 := (h (some noteRecord) false "sqlite3").2
    ⟨noteRecord, rfl, rfl, by simp [noteRecord], by simp [noteRecord], Or.inl rfl⟩
  obtain ⟨info, hinfo⟩ := h1
  have h2 : ExtractTableStructInfo unicodeLower (some noteRecord) false "sqlite3" =
      .error Panic.unexportedField := rfl
  rw [h2] at hinfo
  cases hinfo

/-- C12: when `ExtractTableStructInfo` succeeds, the descriptor has one column
per record field, in declaration order; the i-th column's name is the i-th
field's column annotation, which is not empty, and its value is the `%v` text
of the i-th field's value.  Names and values are the same for every other
choice of type resolution and driver on which extraction succeeds. -/
theorem ExtractTableStructInfo_columns (unicodeLower : Char → Char)
    (tableStruct : Option GoObject) (fillSQLTypes : Bool)
    (driverName : String) (info : StructInfo)
    (h : ExtractTableStructInfo unicodeLower tableStruct fillSQLTypes driverName = .ok info) :
    ∃ obj, tableStruct = some obj ∧
      info.StructFieldsInfo.length = obj.Fields.length ∧
      (∀ (i : Nat) (f : GoField), obj.Fields[i]? = some f →
        ∃ c, info.StructFieldsInfo[i]? = some c ∧ c.FieldName = f.DbTag ∧ c.FieldName ≠ "" ∧
          c.FieldValue = f.Value.format) ∧
      info.StructFieldsInfo.map (·.FieldName) = obj.Fields.map (·.DbTag) ∧
      info.StructFieldsInfo.map (·.FieldValue) = obj.Fields.map (·.Value.format) ∧
      (∀ (fill2 : Bool) (driver2 : String) (info2 : StructInfo),
        ExtractTableStructInfo unicodeLower tableStruct fill2 driver2 = .ok info2 →
        info2.StructFieldsInfo.map (·.FieldName) = info.StructFieldsInfo.map (·.FieldName) ∧
          info2.StructFieldsInfo.map (·.FieldValue) =
            info.StructFieldsInfo.map (·.FieldValue)) := by
  obtain ⟨obj, hobj, hinfo, hfields⟩ :=
    ExtractTableStructInfo_ok_some unicodeLower tableStruct fillSQLTypes driverName info h
  subst hobj
  subst hinfo
  refine ⟨obj, rfl, by simp, ?_, ?_, ?_, ?_⟩
  · intro i f hf
    refine ⟨columnOf fillSQLTypes driverName f, ?_, rfl, ?_, rfl⟩
    · simp [List.getElem?_map, hf]
    · exact (hfields f (List.getElem?_mem hf)).2.2
  · simp [List.map_map, Function.comp, columnOf]
  · simp [List.map_map, Function.comp, columnOf]
  · intro fill2 driver2 info2 h2
    obtain ⟨obj2, hobj2, hinfo2, _⟩ :=
      ExtractTableStructInfo_ok_some unicodeLower (some obj) fill2 driver2 info2 h2
    cases hobj2
    subst hinfo2
    simp [List.map_map, Function.comp, columnOf]

/-- C12, at `Book{Author: "A"}` with type resolution for sqlite3. -/
theorem ExtractTableStructInfo_columns_book :
    ExtractTableStructInfo latin1Lower (some (Book 0 "A" "" "" "" "")) true "sqlite3" =
        .ok ⟨"books",
          [⟨"id", "INTEGER PRIMARY KEY AUTOINCREMENT", "0"⟩, ⟨"author", "TEXT", "A"⟩,
           ⟨"date_published", "TEXT", ""⟩, ⟨"title", "TEXT", ""⟩, ⟨"genre", "TEXT", ""⟩,
           ⟨"preface", "TEXT", ""⟩]⟩ ∧
      ∃ obj, some (Book 0 "A" "" "" "" "") = some obj ∧
        ([⟨"id", "INTEGER PRIMARY KEY AUTOINCREMENT", "0"⟩, ⟨"author", "TEXT", "A"⟩,
          ⟨"date_published", "TEXT", ""⟩, ⟨"title", "TEXT", ""⟩, ⟨"genre", "TEXT", ""⟩,
          ⟨"preface", "TEXT", ""⟩] : List StructFieldsInfo).length = obj.Fields.length :=
  ⟨rfl,
    (ExtractTableStructInfo_columns latin1Lower (some (Book 0 "A" "" "" "" ""))
      true "sqlite3" _ rfl).imp
      (fun _ hobj => ⟨hobj.1, hobj.2.1⟩)⟩

/-- C13: the table name of a type name `n` is `lower(n)` if that ends in `s`
and `lower(n)` followed by `s` otherwise, where `lower` is `strings.ToLower`:
`unicode.ToLower` rune by rune, for whatever Unicode tables the toolchain
has.  `Book` and `Books` both give `books`, and every table name ends in `s`.
Naming a table name again returns it unchanged for every type name made of
ASCII runes, and for every type name at all when lowering a rune twice is the
same as lowering it once, as the tables have it.  This is the table name of
every descriptor `ExtractTableStructInfo` returns. -/
theorem tableName_rule (unicodeLower : Char → Char) (n : String)
    (tableStruct : Option GoObject) (fillSQLTypes : Bool) (driverName : String) :
    (endsInS (toLower unicodeLower n) → tableName unicodeLower n = toLower unicodeLower n) ∧
      (¬ endsInS (toLower unicodeLower n) →
        tableName unicodeLower n = toLower unicodeLower n ++ "s") ∧
      (toLower unicodeLower n).data = n.data.map (runeToLower unicodeLower) ∧
      (∀ r : Char, r.toNat ≤ 127 →
        runeToLower unicodeLower r =
          if 65 ≤ r.toNat ∧ r.toNat ≤ 90 then Char.ofNat (r.toNat + 32) else r) ∧
      (∀ r : Char, ¬ r.toNat ≤ 127 → runeToLower unicodeLower r = unicodeLower r) ∧
      tableName unicodeLower "Book" = "books" ∧ tableName unicodeLower "Books" = "books" ∧
      endsInS (tableName unicodeLower n) ∧
      ((∀ r ∈ n.data, r.toNat ≤ 127) →
        tableName unicodeLower (tableName unicodeLower n) = tableName unicodeLower n) ∧
      ((∀ r, runeToLower unicodeLower (runeToLower unicodeLower r) =
          runeToLower unicodeLower r) →
        tableName unicodeLower (tableName unicodeLower n) = tableName unicodeLower n) ∧
      (∀ info, ExtractTableStructInfo unicodeLower tableStruct fillSQLTypes driverName = .ok info →
        ∃ obj, tableStruct = some obj ∧ info.StructName = tableName unicodeLower obj.Name) := by
  refine ⟨?_, ?_, rfl, ?_, ?_, rfl, rfl, ?_, ?_, ?_, ?_⟩
  · intro h
    rw [tableName_eq, if_pos ((hasSuffix_s_iff _).2 h)]
  · intro h
    rw [tableName_eq, if_neg (fun hs => h ((hasSuffix_s_iff _).1 hs))]
  · intro r hr
    rw [runeToLower_ascii _ r hr]
    rfl
  · intro r hr
    simp [runeToLower, hr]
  · exact (hasSuffix_s_iff _).1 (tableName_hasSuffix unicodeLower n)
  · intro h
    exact tableName_idem unicodeLower n
      (fun r hr => runeToLower_idem_ascii unicodeLower r (h r hr))
  · intro h
    exact tableName_idem unicodeLower n (fun r _ => h r)
  · intro info h
    obtain ⟨obj, hobj, hinfo, _⟩ :=
      ExtractTableStructInfo_ok_some unicodeLower tableStruct fillSQLTypes driverName info h
    exact ⟨obj, hobj, by rw [hinfo]⟩

/-- C13, at the type name `Élan` with the Latin-1 rows of the lower-case
table: the table name is `élans`, and naming it again leaves it unchanged. -/
theorem tableName_rule_latin1 :
    tableName latin1Lower "Élan" = "élans" ∧
      (∀ r, runeToLower latin1Lower (runeToLower latin1Lower r) = runeToLower latin1Lower r) ∧
      tableName latin1Lower (tableName latin1Lower "Élan") = tableName latin1Lower "Élan" :=
  ⟨rfl, latin1Lower_idem,
    (tableName_rule latin1Lower "Élan" none false "").2.2.2.2.2.2.2.2.2.1 latin1Lower_idem⟩

/-- C14, as amended: when `ExtractTableStructInfo` succeeds without type
resolution, the `FieldType` of every column is the Go type string of its field
(`int`, `string`, ...), in field order; it is not left empty. -/
theorem ExtractTableStructInfo_unresolved_types (unicodeLower : Char → Char)
    (tableStruct : Option GoObject)
    (driverName : String) (info : StructInfo)
    (h : ExtractTableStructInfo unicodeLower tableStruct false driverName = .ok info) :
    ∃ obj, tableStruct = some obj ∧
      info.StructFieldsInfo.map (·.FieldType) = obj.Fields.map (·.TypeString) ∧
      (∀ (i : Nat) (f : GoField), obj.Fields[i]? = some f →
        (info.StructFieldsInfo[i]?).map (·.FieldType) = some f.TypeString) := by
  obtain ⟨obj, hobj, hinfo, _⟩ :=
    ExtractTableStructInfo_ok_some unicodeLower tableStruct false driverName info h
  subst hobj
  subst hinfo
  refine ⟨obj, rfl, ?_, ?_⟩
  · simp [List.map_map, Function.comp, columnOf]
  · intro i f hf
    simp [List.getElem?_map, hf, columnOf]

/-- C14, as amended, at `Book{}`. -/
theorem ExtractTableStructInfo_unresolved_types_book :
    ExtractTableStructInfo latin1Lower (some (Book 0 "" "" "" "" "")) false "sqlite3" =
        .ok (bookInfo 0 "" "" "" "" "") ∧
      ∃ obj, some (Book 0 "" "" "" "" "") = some obj ∧
        (bookInfo 0 "" "" "" "" "").StructFieldsInfo.map (·.FieldType) =
          obj.Fields.map (·.TypeString) :=
  ⟨rfl,
    (ExtractTableStructInfo_unresolved_types latin1Lower (some (Book 0 "" "" "" "" ""))
      "sqlite3" _ rfl).imp
      (fun _ hobj => ⟨hobj.1, hobj.2.1⟩)⟩

/-- C14 as stated fails, whatever the Unicode tables: without type resolution
the columns of `Book{}` carry the Go type names `int` and `string`, not the
empty string. -/
theorem unresolved_types_empty_fails :
    ¬ ∃ unicodeLower : Char → Char,
      ∀ (tableStruct : Option GoObject) (driverName : String) (info : StructInfo),
        ExtractTableStructInfo unicodeLower tableStruct false driverName = .ok info →
        ∀ c ∈ info.StructFieldsInfo, c.FieldType = "" := by
  rintro ⟨unicodeLower, h⟩
  have h1 := h (some (Book 0 "" "" "" "" "")) "sqlite3" (bookInfo 0 "" "" "" "" "") rfl
    ⟨"id", "int", "0"⟩ (by decide)
  revert h1
  decide

/-- C15, as amended: introspecting, for sqlite with type resolution, the
record `Book{Id: 0, Author: "A", Title: "T"}` annotated `id`, `author`,
`title` gives the table name `books` and the columns
`("id", "INTEGER PRIMARY KEY AUTOINCREMENT", "0")`, `("author", "TEXT", "A")`,
`("title", "TEXT", "T")`: the value of the identity column for `Id = 0` is
`"0"`. -/
theorem ExtractTableStructInfo_scenario (unicodeLower : Char → Char) :
    ExtractTableStructInfo unicodeLower (some (scenarioBook 0 "A" "T"))
      true Dialect.sqlite.driverName =
      .ok ⟨"books",
        [⟨"id", "INTEGER PRIMARY KEY AUTOINCREMENT", "0"⟩, ⟨"author", "TEXT", "A"⟩,
         ⟨"title", "TEXT", "T"⟩]⟩ :=
  rfl

/-- C15 as stated fails, whatever the Unicode tables: the descriptor of the
scenario is not the one whose identity column has the empty string as value. -/
theorem scenario_empty_identity_value_fails :
    ¬ ∃ unicodeLower : Char → Char,
      ExtractTableStructInfo unicodeLower (some (scenarioBook 0 "A" "T"))
        true Dialect.sqlite.driverName =
        .ok ⟨"books",
          [⟨"id", "INTEGER PRIMARY KEY AUTOINCREMENT", ""⟩, ⟨"author", "TEXT", "A"⟩,
           ⟨"title", "TEXT", "T"⟩]⟩ := by
  rintro ⟨unicodeLower, h⟩
  have h2 : ExtractTableStructInfo unicodeLower (some (scenarioBook 0 "A" "T")) true
      Dialect.sqlite.driverName =
      .ok ⟨"books",
        [⟨"id", "INTEGER PRIMARY KEY AUTOINCREMENT", "0"⟩, ⟨"author", "TEXT", "A"⟩,
         ⟨"title", "TEXT", "T"⟩]⟩ := rfl
  rw [h2] at h
  injection h with h
  revert h
  decide

/-- C16: on sqlite, `UpdateMany` with the query record `Book{Author: "A"}` and
the data record `Book{Author: "A2"}` hands the database the statement
`UPDATE books SET author = ? WHERE author = ?;` with the arguments `"A2"`,
`"A"` in that order; the zero `Id` and the empty `Title` of either record add
no clause and no argument. -/
theorem UpdateMany_scenario (unicodeLower : Char → Char) :
    UpdateMany unicodeLower Dialect.sqlite.driverName (some (scenarioBook 0 "A" ""))
        (some (scenarioBook 0 "A2" "")) =
      .ok ("UPDATE books SET author = ? WHERE author = ?;", ["A2", "A"]) ∧
    ExtractTableStructInfo unicodeLower (some (scenarioBook 0 "A" ""))
      false Dialect.sqlite.driverName =
      .ok ⟨"books", [⟨"id", "int", "0"⟩, ⟨"author", "string", "A"⟩, ⟨"title", "string", ""⟩]⟩ ∧
    ExtractTableStructInfo unicodeLower (some (scenarioBook 0 "A2" ""))
      false Dialect.sqlite.driverName =
      .ok ⟨"books", [⟨"id", "int", "0"⟩, ⟨"author", "string", "A2"⟩, ⟨"title", "string", ""⟩]⟩ ∧
    generateUpdateQuery
        ⟨"books", [⟨"id", "int", "0"⟩, ⟨"author", "string", "A"⟩, ⟨"title", "string", ""⟩]⟩
        ⟨"books", [⟨"id", "int", "0"⟩, ⟨"author", "string", "A2"⟩, ⟨"title", "string", ""⟩]⟩
        Dialect.sqlite.driverName =
      ("UPDATE books SET author = ? WHERE author = ?;", ["A2", "A"]) :=
  ⟨rfl, rfl, rfl, rfl⟩

/-- C17, as amended: when `ExtractTableStructInfo` succeeds, the column names
of the descriptor are pairwise distinct exactly when the column annotations of
the record's fields are; the code does not check it. -/
theorem ExtractTableStructInfo_names_nodup (unicodeLower : Char → Char)
    (tableStruct : Option GoObject)
    (fillSQLTypes : Bool) (driverName : String) (info : StructInfo)
    (h : ExtractTableStructInfo unicodeLower tableStruct fillSQLTypes driverName = .ok info) :
    ∃ obj, tableStruct = some obj ∧
      ((info.StructFieldsInfo.map (·.FieldName)).Nodup ↔ (obj.Fields.map (·.DbTag)).Nodup) := by
  obtain ⟨obj, hobj, hinfo, _⟩ :=
    ExtractTableStructInfo_ok_some unicodeLower tableStruct fillSQLTypes driverName info h
  subst hobj
  subst hinfo
  refine ⟨obj, rfl, ?_⟩
  have : (obj.Fields.map (columnOf fillSQLTypes driverName)).map (·.FieldName) =
      obj.Fields.map (·.DbTag) := by
    simp [List.map_map, Function.comp, columnOf]
  rw [this]

/-- C17, as amended, at `Book{}`, whose six annotations are distinct. -/
theorem ExtractTableStructInfo_names_nodup_book :
    ExtractTableStructInfo latin1Lower (some (Book 0 "" "" "" "" "")) false "mysql" =
        .ok (bookInfo 0 "" "" "" "" "") ∧
      ∃ obj, some (Book 0 "" "" "" "" "") = some obj ∧
        (((bookInfo 0 "" "" "" "" "").StructFieldsInfo.map (·.FieldName)).Nodup ↔
          (obj.Fields.map (·.DbTag)).Nodup) :=
  ⟨rfl, ExtractTableStructInfo_names_nodup latin1Lower (some (Book 0 "" "" "" "" ""))
      false "mysql" _ rfl⟩

/-- C17 as stated fails, whatever the Unicode tables: extraction succeeds on
`pairRecord`, whose two fields are both annotated `name`, and the descriptor
has two columns named `name`. -/
theorem names_nodup_fails :
    ¬ ∃ unicodeLower : Char → Char,
      ∀ (tableStruct : Option GoObject) (fillSQLTypes : Bool) (driverName : String)
        (info : StructInfo),
        ExtractTableStructInfo unicodeLower tableStruct fillSQLTypes driverName = .ok info →
        (info.StructFieldsInfo.map (·.FieldName)).Nodup := by
  rintro ⟨unicodeLower, h⟩
  have h1 := h (some pairRecord) false "sqlite3"
    ⟨"pairs", [⟨"name", "string", "a"⟩, ⟨"name", "string", "b"⟩]⟩ rfl
  revert h1
  decide

/-- C18, as amended: `generateCreateTableSQL` returns a non-empty text exactly
when the driver name is one of `sqlite3`, `postgres`, `mysql`; for every other
name, `sqlite` included, it returns the empty string. -/
theorem generateCreateTableSQL_supported (info : StructInfo) (driverName : String) :
    (generateCreateTableSQL info driverName ≠ "" ↔
        driverName = "sqlite3" ∨ driverName = "postgres" ∨ driverName = "mysql") ∧
      (generateCreateTableSQL info driverName = "" ↔
        ¬(driverName = "sqlite3" ∨ driverName = "postgres" ∨ driverName = "mysql")) ∧
      generateCreateTableSQL info "sqlite" = "" := by
  have hne := generateCreateTableSQL_ne_empty info driverName
  have hother : ¬(driverName = "sqlite3" ∨ driverName = "postgres" ∨ driverName = "mysql") →
      generateCreateTableSQL info driverName = "" := by
    intro h
    push_neg at h
    simp [generateCreateTableSQL, h.1, h.2.1, h.2.2]
  refine ⟨⟨?_, hne⟩, ⟨?_, hother⟩, rfl⟩
  · intro h
    by_contra hc
    exact h (hother hc)
  · intro h hc
    exact hne hc h

/-- C18 as stated fails: for the dialect tag `sqlite` the text is empty (the
driver name the code knows is `sqlite3`). -/
theorem supported_tags_fails :
    ¬ ∀ (info : StructInfo) (driverName : String),
        generateCreateTableSQL info driverName ≠ "" ↔
          driverName = "sqlite" ∨ driverName = "postgres" ∨ driverName = "mysql" := by
  intro h
  exact (h (bookInfo 0 "" "" "" "" "") "sqlite").2 (Or.inl rfl) rfl

/-- C19: the find, update and delete builders return a result on every
descriptor.  When every column of the query descriptor has an empty value or
is `id` with value `"0"`, they emit `WHERE` with an empty condition list and
no WHERE argument: `generateFindQuery` with limit 0 returns
`SELECT * FROM <table> WHERE ;` and `generateDeleteQuery` returns
`DELETE FROM <table> WHERE ;`, both without arguments, and
`generateUpdateQuery` returns its SET list followed by ` WHERE ;` with the SET
values only. -/
theorem builders_without_conditions (info d : StructInfo) (skip : Int) (driverName : String)
    (h : ∀ f ∈ info.StructFieldsInfo,
      f.FieldValue = "" ∨ (f.FieldName = "id" ∧ f.FieldValue = "0")) :
    generateFindQuery info 0 skip driverName =
        ("SELECT * FROM " ++ info.StructName ++ " WHERE ;", []) ∧
      generateDeleteQuery info driverName =
        ("DELETE FROM " ++ info.StructName ++ " WHERE ;", []) ∧
      generateUpdateQuery info d driverName =
        ("UPDATE " ++ d.StructName ++ " SET " ++
            ", ".intercalate (numberedClauses driverName 1 (setColumns d)) ++ " WHERE ;",
          (setColumns d).map (·.FieldValue)) := by
  have hnone : filterColumns info = [] := by
    unfold filterColumns
    rw [List.filter_eq_nil_iff]
    intro f hf hk
    have hk2 := (isFilterColumn_iff f).1 hk
    rcases h f hf with hv | hv
    · exact hk2.1 hv
    · exact hk2.2 hv
  have hjoin : ∀ start, " AND ".intercalate (numberedClauses driverName start []) = "" :=
    fun _ => rfl
  have hlit : ∀ s : String, s ++ " WHERE " ++ ";" = s ++ " WHERE ;" := by
    intro s
    rw [String.append_assoc]
    rfl
  refine ⟨?_, ?_, ?_⟩
  · rw [generateFindQuery_eq, whereClause, hnone, hjoin]
    simp only [gt_iff_lt, lt_self_iff_false, if_false, List.map_nil, String.append_empty]
    rw [hlit]
  · rw [generateDeleteQuery_eq, whereClause, hnone, hjoin]
    simp only [List.map_nil, String.append_empty]
    rw [hlit]
  · rw [generateUpdateQuery_eq, hnone, hjoin]
    simp only [List.map_nil, String.append_empty, List.append_nil]
    rw [hlit]

/-- C19, at the descriptor of `Book{}` as query and of `Book{Author: "A2"}` as
data. -/
theorem builders_without_conditions_book :
    (∀ f ∈ (bookInfo 0 "" "" "" "" "").StructFieldsInfo,
        f.FieldValue = "" ∨ (f.FieldName = "id" ∧ f.FieldValue = "0")) ∧
      generateFindQuery (bookInfo 0 "" "" "" "" "") 0 0 "sqlite3" =
        ("SELECT * FROM " ++ "books" ++ " WHERE ;", []) ∧
      generateDeleteQuery (bookInfo 0 "" "" "" "" "") "sqlite3" =
        ("DELETE FROM " ++ "books" ++ " WHERE ;", []) ∧
      generateUpdateQuery (bookInfo 0 "" "" "" "" "") (bookInfo 0 "A2" "" "" "" "") "sqlite3" =
        ("UPDATE books SET author = ? WHERE ;", ["A2"]) :=
  ⟨by decide,
    builders_without_conditions (bookInfo 0 "" "" "" "" "") (bookInfo 0 "A2" "" "" "" "") 0
      "sqlite3" (by decide)⟩

/-- C20: the SQL text of the find, delete, update and insert builders does not
depend on the column values beyond their being empty or `"0"`: descriptors
(or lists of descriptors, pairwise) with the same table name and the same
column names in the same order, whose corresponding values agree on being
empty and on being `"0"`, give the same SQL text for every driver, limit and
skip. -/
theorem sql_text_independent_of_values (d1 d2 q1 q2 : StructInfo) (l1 l2 : List StructInfo)
    (limit skip : Int) (driverName : String)
    (hd : sameShape d1 d2) (hq : sameShape q1 q2) (hl : List.Forall₂ sameShape l1 l2) :
    (generateFindQuery q1 limit skip driverName).1 =
        (generateFindQuery q2 limit skip driverName).1 ∧
      (generateDeleteQuery q1 driverName).1 = (generateDeleteQuery q2 driverName).1 ∧
      (generateUpdateQuery q1 d1 driverName).1 = (generateUpdateQuery q2 d2 driverName).1 ∧
      (generateInsertQuery l1 driverName).map (·.1) =
        (generateInsertQuery l2 driverName).map (·.1) := by
  refine ⟨?_, ?_, ?_, generateInsertQuery_text_congr l1 l2 driverName hl⟩
  · rw [generateFindQuery_eq, generateFindQuery_eq, whereClause_congr driverName q1 q2 hq, hq.1]
  · rw [generateDeleteQuery_eq, generateDeleteQuery_eq, whereClause_congr driverName q1 q2 hq,
      hq.1]
  · have hset := setColumns_names_congr _ _ hd.2
    have hfil := filterColumns_names_congr _ _ hq.2
    rw [generateUpdateQuery_eq, generateUpdateQuery_eq]
    simp only [setColumns, filterColumns]
    rw [numberedClauses_names_congr driverName 1 _ _ hset,
      numberedClauses_names_congr driverName _ _ _ hfil, names_length_congr _ _ hset, hd.1]

/-- C20, at `Book` descriptors that differ only in the text of their non-empty
values. -/
theorem sql_text_independent_of_values_book :
    sameShape (bookInfo 0 "Alin Developer" "" "" "" "") (bookInfo 0 "Bobby" "" "" "" "") ∧
      sameShape (bookInfo 0 "Alin Dev" "" "" "Programming" "")
        (bookInfo 0 "x" "" "" "y; DROP TABLE books" "") ∧
      List.Forall₂ sameShape
        [bookInfo 0 "a" "b" "c" "d" "e", bookInfo 0 "f" "g" "h" "i" "j"]
        [bookInfo 0 "v" "w" "x" "y" "z", bookInfo 0 "p" "q" "r" "s" "t"] ∧
      ((generateFindQuery (bookInfo 0 "Alin Dev" "" "" "Programming" "") 2 0 "postgres").1 =
          (generateFindQuery (bookInfo 0 "x" "" "" "y; DROP TABLE books" "") 2 0 "postgres").1 ∧
        (generateDeleteQuery (bookInfo 0 "Alin Dev" "" "" "Programming" "") "postgres").1 =
          (generateDeleteQuery (bookInfo 0 "x" "" "" "y; DROP TABLE books" "") "postgres").1 ∧
        (generateUpdateQuery (bookInfo 0 "Alin Dev" "" "" "Programming" "")
            (bookInfo 0 "Alin Developer" "" "" "" "") "postgres").1 =
          (generateUpdateQuery (bookInfo 0 "x" "" "" "y; DROP TABLE books" "")
            (bookInfo 0 "Bobby" "" "" "" "") "postgres").1 ∧
        (generateInsertQuery [bookInfo 0 "a" "b" "c" "d" "e", bookInfo 0 "f" "g" "h" "i" "j"]
            "postgres").map (·.1) =
          (generateInsertQuery [bookInfo 0 "v" "w" "x" "y" "z", bookInfo 0 "p" "q" "r" "s" "t"]
            "postgres").map (·.1)) :=
  ⟨by simp [sameShape, sameColumnShape, bookInfo],
    by simp [sameShape, sameColumnShape, bookInfo],
    by simp [sameShape, sameColumnShape, bookInfo],
    sql_text_independent_of_values _ _ _ _ _ _ 2 0 "postgres"
      (by simp [sameShape, sameColumnShape, bookInfo])
      (by simp [sameShape, sameColumnShape, bookInfo])
      (by simp [sameShape, sameColumnShape, bookInfo])⟩

/-- C21: `generateInsertQuery` returns a result for every non-empty list of
descriptors, also when the first descriptor has no column other than `id`, and
panics with an index out of range on the empty list, and only there.
`InsertMany` does not test for emptiness: on the empty slice of records it
reaches that panic, and whenever it panics that way the slice was empty;
`InsertOne` always passes one descriptor and never does. -/
theorem generateInsertQuery_index (unicodeLower : Char → Char)
    (first : StructInfo) (rest structInfo : List StructInfo)
    (driverName table idType idValue : String) (tablesStructs : List (Option GoObject))
    (tableStruct : Option GoObject) :
    (∃ r, generateInsertQuery (first :: rest) driverName = .ok r) ∧
      generateInsertQuery [] driverName = .error Panic.indexOutOfRange ∧
      ((∃ r, generateInsertQuery structInfo driverName = .ok r) ↔ structInfo ≠ []) ∧
      (generateInsertQuery structInfo driverName = .error Panic.indexOutOfRange ↔
        structInfo = []) ∧
      generateInsertQuery [⟨table, [⟨"id", idType, idValue⟩]⟩] driverName =
        .ok ("INSERT INTO " ++ table ++ " (" ++ "" ++ ") VALUES " ++ "()" ++ ";", []) ∧
      InsertMany unicodeLower driverName [] = .error Panic.indexOutOfRange ∧
      (InsertMany unicodeLower driverName tablesStructs = .error Panic.indexOutOfRange ↔
        tablesStructs = []) ∧
      InsertOne unicodeLower driverName tableStruct ≠ .error Panic.indexOutOfRange := by
  have hok : ∀ (a : StructInfo) (l : List StructInfo),
      ∃ r, generateInsertQuery (a :: l) driverName = .ok r := fun a l => ⟨_, rfl⟩
  have hiff : ∀ l : List StructInfo,
      generateInsertQuery l driverName = .error Panic.indexOutOfRange ↔ l = [] := by
    intro l
    cases l with
    | nil => simp [generateInsertQuery]
    | cons a l =>
      obtain ⟨r, hr⟩ := hok a l
      simp [hr]
  have hextract : ∀ t : Option GoObject,
      ExtractTableStructInfo unicodeLower t false driverName ≠ .error Panic.indexOutOfRange := by
    intro t h
    cases t with
    | none => cases h
    | some obj =>
      rw [ExtractTableStructInfo_eq] at h
      split at h
      · cases h
      · split at h
        · rename_i g _
          injection h with h
          unfold fieldPanic at h
          split at h
          · cases h
          · split at h <;> cases h
        · simp at h
  have hloop : ∀ (l : List (Option GoObject)) (acc : List StructInfo),
      insertManyLoop unicodeLower driverName l acc ≠ .error Panic.indexOutOfRange := by
    intro l
    induction l with
    | nil =>
      intro acc h
      simp [insertManyLoop] at h
    | cons t rest ih =>
      intro acc h
      simp only [insertManyLoop] at h
      split at h
      · rename_i e he
        injection h with h
        subst h
        exact hextract t he
      · exact ih _ h
  refine ⟨hok first rest, rfl, ?_, hiff structInfo, ?_, rfl, ?_, ?_⟩
  · cases structInfo with
    | nil =>
      constructor
      · rintro ⟨r, hr⟩
        cases hr
      · intro h
        exact absurd rfl h
    | cons a l => simp [hok a l]
  · rfl
  · constructor
    · intro h
      unfold InsertMany at h
      split at h
      · rename_i e he
        injection h with h
        subst h
        exact absurd he (hloop _ _)
      · rename_i infos hinfos
        have hlen := insertManyLoop_length unicodeLower driverName tablesStructs [] infos hinfos
        have hnil := (hiff infos).1 h
        subst hnil
        cases tablesStructs with
        | nil => rfl
        | cons _ _ => simp at hlen
    · intro h
      subst h
      rfl
  · intro h
    unfold InsertOne at h
    split at h
    · rename_i e he
      injection h with h
      subst h
      exact hextract _ he
    · rename_i si _
      obtain ⟨r, hr⟩ := hok si []
      simp only [List.nil_append] at h
      rw [hr] at h
      cases h

end Gobadrepo
